import Mathlib

/-!
Verification development for the brisker-server WebSocket session manager
(`src/ws.ts`).  The `WSManager` class is shallowly embedded as a pure state
machine: JavaScript `Map`s become association lists with `Map.set` semantics
(replace in place, append at end), `Set`s become insertion-ordered lists,
sockets become natural-number channel identifiers, and the asynchronous
pieces (the `close` event, the debounce timers, the serialized persistence
promise chain) become explicit environment events interpreted by
`applyEvent`.  `Math.random()` is an external stream `rand : Nat → Nat`
indexed by a counter in the state.
-/

namespace Brisker

/-! ## Association-list helpers with JavaScript `Map` semantics -/

def lookupA {α β : Type} [DecidableEq α] : List (α × β) → α → Option β
  | [], _ => none
  | (k, v) :: t, a => if k = a then some v else lookupA t a

/-- Mirrors `Map.set`: replace the binding in place if the key is present,
otherwise append at the end (insertion order is preserved). -/
def setA {α β : Type} [DecidableEq α] : List (α × β) → α → β → List (α × β)
  | [], a, b => [(a, b)]
  | (k, v) :: t, a, b => if k = a then (a, b) :: t else (k, v) :: setA t a b

/-- Mirrors `Map.delete`. -/
def eraseA {α β : Type} [DecidableEq α] : List (α × β) → α → List (α × β)
  | [], _ => []
  | (k, v) :: t, a => if k = a then eraseA t a else (k, v) :: eraseA t a

def hasA {α β : Type} [DecidableEq α] (l : List (α × β)) (a : α) : Bool :=
  (lookupA l a).isSome

/-- Membership in a `Set`-as-list of strings. -/
def memStr : List String → String → Bool
  | [], _ => false
  | x :: t, a => if x = a then true else memStr t a

/-- Mirrors `Set.add`: append if absent. -/
def addSet (l : List String) (x : String) : List String :=
  if memStr l x then l else l ++ [x]

def removeNat (l : List Nat) (w : Nat) : List Nat :=
  l.filter (fun x => decide (x ≠ w))

def addNat (l : List Nat) (w : Nat) : List Nat :=
  if w ∈ l then l else l ++ [w]

/-! ## String helpers mirroring the JavaScript operations used -/

/-- Regex test `^\d{4}$`. -/
def is4Digit (t : String) : Bool :=
  t.length == 4 && t.toList.all (fun c => c.isDigit)

/-- Truthy-or for strings: `o || d` in JavaScript, where the empty string is
falsy. -/
def strOr (o : Option String) (d : String) : String :=
  match o with
  | some x => if x = "" then d else x
  | none => d

/-- JavaScript `toLowerCase` (ASCII), written over the character list so
that it is kernel-computable. -/
def strLower (t : String) : String := String.mk (t.toList.map Char.toLower)

/-- JavaScript `trim`: strip leading and trailing whitespace. -/
def strTrim (t : String) : String :=
  String.mk (((t.toList.dropWhile Char.isWhitespace).reverse.dropWhile
    Char.isWhitespace).reverse)

def listStarts : List Char → List Char → Bool
  | [], _ => true
  | _ :: _, [] => false
  | a :: as, b :: bs => decide (a = b) && listStarts as bs

def listInfixOf (sub : List Char) : List Char → Bool
  | [] => sub.isEmpty
  | c :: rest => listStarts sub (c :: rest) || listInfixOf sub rest

/-- JavaScript `t.includes(sub)`. -/
def strIncludes (t sub : String) : Bool :=
  listInfixOf sub.toList t.toList

/-- Placeholder identity given to a freshly opened channel before any player
identifier is assigned (source: `temp_${Date.now()}_${Math.random()}`; the
channel number keeps it channel-unique). -/
def tempID (w : Nat) : String := "temp_" ++ toString w

/-! ## Data model -/

structure Location where
  latitude : Int
  longitude : Int
deriving DecidableEq

structure LocXY where
  x : Int
  y : Int
deriving DecidableEq

/-- Last game state published by a client: `{ total?, history? }`. -/
structure StateSnap where
  total : Option Int
  history : Option (List Int)
deriving DecidableEq

/-- The `ClientInfo` record of the source, minus the `ws` field which is the
key of the `info` map in `WSState`. -/
structure ClientInfo where
  playerID : String
  name : Option String
  location : Option Location
  opponentID : Option String
  lastState : Option StateSnap
deriving DecidableEq

structure GetAllEntry where
  playerID : String
  name : Option String
  isOnline : Bool
  location : Option LocXY
deriving DecidableEq

structure PlayerEntry where
  playerID : String
  name : String
  isOnline : Bool
  location : Option LocXY
deriving DecidableEq

/-- Events the server can emit on a channel (the `WebSocketEvents` sent by
`ws.ts`). -/
inductive ServerEvent where
  | connectionEstablished
  | idAssigned (playerID : String)
  | reconnected (playerID : String)
  | invalidId
  | gameError (message : String)
  | autoJoined (opponentID : String) (opponentName : String)
  | opponentScored (score : Int) (playerID : String)
  | applyBrisksE (briskCount : Option Int) (srcID : String)
  | opponentUndoE (points : Option Int) (briskValue : Option Int) (srcID : String)
  | gameResetE (srcID : String)
  | playerOnline (playerID : String)
  | playerOffline (playerID : String)
  | nameChanged (playerID : String) (name : String)
  | playersList (players : List PlayerEntry)
  | searchResults (players : List PlayerEntry)
  | gameResume (opponentID : String) (opponentName : String) (gameState : StateSnap)
deriving DecidableEq

/-- Messages a client can send (`message.type` plus the payload fields the
handlers read; absent payload fields are `none`). -/
inductive ClientMsg where
  | requestId (name : Option String)
  | reconnect (playerID : Option String) (name : Option String)
  | updateName (name : Option String)
  | stateUpdate (name : Option String) (location : Option Location)
      (opponentID : Option String) (total : Option Int) (history : Option (List Int))
  | updateLocation (location : Option Location)
  | gameStart (opponentID : Option String)
  | scoreUpdate (opponentID : Option String) (score : Option Int)
  | applyPoints (opponentID : Option String) (points : Option Int)
  | applyBrisks (opponentID : Option String) (briskCount : Option Int)
  | opponentUndo (opponentID : Option String) (points : Option Int) (briskValue : Option Int)
  | gameReset (opponentID : Option String)
  | getAll
  | search (searchTerm : Option String)
  | other (t : String)
deriving DecidableEq

/-- The state of a `WSManager` instance.  `clients` maps a player identifier
to the channel whose `ClientInfo` object is bound to it; `info` holds the
(unique, mutable) `ClientInfo` object of each channel; `wsToClient` is the
domain of the socket→client map; `openSet` holds the channels whose
`readyState` is `OPEN`; `pendingClose` holds channels that are closed but
whose `close` event has not yet been dispatched.  `saving = some k` models an
in-flight durable write with `k` chained saves queued behind it
(`savingPromise` chain); `persistReqs`/`writeCount` count persist requests
and started writes. -/
structure WSState where
  openSet : List Nat
  pendingClose : List Nat
  wsToClient : List Nat
  info : List (Nat × ClientInfo)
  clients : List (String × Nat)
  usedPlayerIDs : List String
  offlineTimers : List (String × Nat)
  lastOnline : List (String × Nat)
  saving : Option Nat
  persistReqs : Nat
  writeCount : Nat
  now : Nat
  randIdx : Nat
deriving DecidableEq

abbrev Out := Nat × ServerEvent

def initState : WSState :=
  { openSet := [], pendingClose := [], wsToClient := [], info := [], clients := []
    usedPlayerIDs := [], offlineTimers := [], lastOnline := []
    saving := none, persistReqs := 0, writeCount := 0, now := 0, randIdx := 0 }

/-! ## Persistence (`saveUsedIDs`): serialized writes via the chained promise -/

/-- A call to `saveUsedIDs`: if no write is in flight, start one; otherwise
chain one more save behind the in-flight promise. -/
def requestSave (s : WSState) : WSState :=
  { s with saving := some (match s.saving with | none => 0 | some k => k + 1)
           persistReqs := s.persistReqs + 1
           writeCount := match s.saving with | none => s.writeCount + 1 | some _ => s.writeCount }

/-- Completion of the in-flight durable write: clear `savingPromise`; if
saves were chained behind it, the next chained `saveUsedIDs` call runs and
starts one more write of the current full set. -/
def writeDoneStep (s : WSState) : WSState :=
  { s with saving := match s.saving with | some (k + 1) => some k | _ => none
           writeCount := match s.saving with | some (_ + 1) => s.writeCount + 1 | _ => s.writeCount }

/-! ## Identifier generation (`generateUniquePlayerID`) -/

/-- The candidate drawn at stream position `i`:
`Math.floor(Math.random() * 9000) + 1000`, textual form. -/
def drawID (rand : Nat → Nat) (i : Nat) : String :=
  toString (1000 + rand i % 9000)

/-- The do/while loop of `generateUniquePlayerID`; `fuel` counts the
remaining allowed attempts (1000 at the top), returning the fresh identifier
and the next stream position, or `none` when the attempt bound is hit (the
source throws). -/
def genAux (used : List String) (ck : List String) (rand : Nat → Nat) :
    Nat → Nat → Option String × Nat
  | i, 0 => (none, i)
  | i, fuel + 1 =>
    let c := drawID rand i
    if memStr used c || memStr ck c then genAux used ck rand (i + 1) fuel
    else (some c, i + 1)

/-! ## Small state mutators -/

/-- Mutate the (shared, aliased) `ClientInfo` object of channel `w`. -/
def mutInfo (s : WSState) (w : Nat) (f : ClientInfo → ClientInfo) : WSState :=
  { s with info := match lookupA s.info w with
                   | some c => setA s.info w (f c)
                   | none => s.info }

/-- `ws.close()` on a prior holder: the channel leaves the OPEN state and its
`close` event becomes pending (no effect on an already closed channel). -/
def forceClose (s : WSState) (pw : Nat) : WSState :=
  { s with openSet := if pw ∈ s.openSet then removeNat s.openSet pw else s.openSet
           pendingClose := if pw ∈ s.openSet then addNat s.pendingClose pw else s.pendingClose }

/-- Force-close a prior holder and drop its socket→client mapping
(`prev.ws.close(); this.wsToClient.delete(prev.ws)`). -/
def dropWs (s : WSState) (pw : Nat) : WSState :=
  let s1 := forceClose s pw
  { s1 with wsToClient := removeNat s1.wsToClient pw }

/-- `this.send(playerID, message)`: deliver only if the identifier is bound
and its channel is open. -/
def sendToList (s : WSState) (pid : String) (ev : ServerEvent) : List Out :=
  match lookupA s.clients pid with
  | some cw => if cw ∈ s.openSet then [(cw, ev)] else []
  | none => []

/-! ## Presence notifications -/

/-- Body of `sendPlayerOnline`.  It only ever mutates `lastOnlineBroadcast`,
so it returns the new `lastOnline` map together with the emitted events. -/
def sendPlayerOnlineCore (s : WSState) (pid : String) : List (String × Nat) × List Out :=
  let last := (lookupA s.lastOnline pid).getD 0
  if s.now - last < 1500 then (s.lastOnline, [])
  else
    let lo := setA s.lastOnline pid s.now
    let s1 := { s with lastOnline := lo }
    match lookupA s1.clients pid with
    | some cw =>
      match lookupA s1.info cw with
      | some c =>
        match c.opponentID with
        | some oid =>
          if oid = "" then (lo, [])
          else
            match lookupA s1.clients oid with
            | some ow =>
              if ow ∈ s1.openSet then
                match lookupA s1.info ow with
                | some oc => (lo, sendToList s1 oc.playerID (.playerOnline pid))
                | none => (lo, [])
              else (lo, [])
            | none => (lo, [])
        | none => (lo, [])
      | none => (lo, [])
    | none => (lo, [])

/-- Body of `sendPlayerOffline` (emissions only; it mutates nothing). -/
def sendPlayerOfflineOut (s : WSState) (pid : String) : List Out :=
  match lookupA s.clients pid with
  | some cw =>
    match lookupA s.info cw with
    | some c =>
      match c.opponentID with
      | some oid =>
        if oid = "" then []
        else
          match lookupA s.clients oid with
          | some ow =>
            if ow ∈ s.openSet then
              match lookupA s.info ow with
              | some oc => sendToList s oc.playerID (.playerOffline pid)
              | none => []
            else []
          | none => []
      | none => []
    | none => []
  | none => []

/-! ## Message handlers (`handleMessage` cases) -/

/-- `player:request_id`. -/
def handleRequestId (rand : Nat → Nat) (s : WSState) (w : Nat) (name? : Option String) :
    WSState × List Out :=
  match genAux s.usedPlayerIDs (s.clients.map Prod.fst) rand s.randIdx 1000 with
  | (none, i') => ({ s with randIdx := i' }, [])
  | (some id, i') =>
    let s0 := requestSave { s with usedPlayerIDs := addSet s.usedPlayerIDs id, randIdx := i' }
    let s1 := mutInfo s0 w
      (fun c => { c with playerID := id, name := some (strOr name? ("Player " ++ id)) })
    let s2 :=
      match lookupA s1.clients id with
      | some pw => if pw = w then s1 else dropWs s1 pw
      | none => s1
    let s3 := { s2 with clients := setA s2.clients id w, wsToClient := addNat s2.wsToClient w }
    let r := sendPlayerOnlineCore s3 id
    ({ s3 with lastOnline := r.1 }, (w, ServerEvent.idAssigned id) :: r.2)

/-- `player:reconnect`. -/
def handleReconnect (s : WSState) (w : Nat) (pid? : Option String) (name? : Option String) :
    WSState × List Out :=
  match pid? with
  | some pid =>
    if is4Digit pid then
      let s1 := { s with offlineTimers := eraseA s.offlineTimers pid }
      let s2 :=
        match lookupA s1.clients pid with
        | some pw => if pw = w then s1 else dropWs s1 pw
        | none => s1
      let s3 := mutInfo s2 w
        (fun c => { c with playerID := pid, name := some (strOr name? ("Player " ++ pid)) })
      let s4 := { s3 with clients := setA s3.clients pid w, wsToClient := addNat s3.wsToClient w }
      let s5 := requestSave { s4 with usedPlayerIDs := addSet s4.usedPlayerIDs pid }
      let r := sendPlayerOnlineCore s5 pid
      let s6 := { s5 with lastOnline := r.1 }
      let resume :=
        match lookupA s6.info w with
        | some c =>
          match c.lastState, c.opponentID with
          | some gs, some oid =>
            if oid = "" then []
            else
              match lookupA s6.clients oid with
              | some ow =>
                if ow ∈ s6.openSet then sendToList s6 oid (.gameResume pid (strOr c.name "") gs)
                else []
              | none => []
          | _, _ => []
        | none => []
      (s6, (w, ServerEvent.reconnected pid) :: (r.2 ++ resume))
    else (s, [(w, ServerEvent.invalidId)])
  | none => (s, [(w, ServerEvent.invalidId)])

/-- `player:update_name`. -/
def handleUpdateName (s : WSState) (w : Nat) (name? : Option String) : WSState × List Out :=
  let s1 := mutInfo s w (fun c => { c with name := some (strOr name? (strOr c.name "")) })
  let out :=
    match lookupA s1.info w with
    | some c =>
      match c.opponentID with
      | some oid =>
        if oid = "" then []
        else
          match lookupA s1.clients oid with
          | some ow =>
            if ow ∈ s1.openSet then
              match lookupA s1.info ow with
              | some oc => sendToList s1 oc.playerID (.nameChanged c.playerID (strOr c.name ""))
              | none => []
            else []
          | none => []
      | none => []
    | none => []
  (s1, out)

/-- `player:state_update`. -/
def handleStateUpdate (s : WSState) (w : Nat) (name? : Option String) (loc? : Option Location)
    (oid? : Option String) (total? : Option Int) (hist? : Option (List Int)) :
    WSState × List Out :=
  let s1 := mutInfo s w (fun c =>
    let c := match name? with
      | some n => if n = "" then c else { c with name := some n }
      | none => c
    let c := match loc? with
      | some l => { c with location := some l }
      | none => c
    let c := match oid? with
      | some o => if o = "" then c else { c with opponentID := some o }
      | none => c
    { c with lastState := some { total := total?, history := hist? } })
  (s1, [])

/-- `game:start`. -/
def handleGameStart (s : WSState) (w : Nat) (current : String) (oid? : Option String) :
    WSState × List Out :=
  match oid? with
  | none => (s, [(w, ServerEvent.gameError "Cannot start a game with yourself")])
  | some oid =>
    if oid = "" ∨ oid = current then
      (s, [(w, ServerEvent.gameError "Cannot start a game with yourself")])
    else
      match lookupA s.clients oid with
      | some ow =>
        let s1 := mutInfo s w (fun c => { c with opponentID := some oid })
        let s2 := mutInfo s1 ow (fun c => { c with opponentID := some current })
        let oname := match lookupA s2.info ow with | some oc => strOr oc.name "" | none => ""
        let cname := match lookupA s2.info w with | some c => strOr c.name "" | none => ""
        (s2, sendToList s2 current (.autoJoined oid oname) ++
             sendToList s2 oid (.autoJoined current cname))
      | none => (s, [])

/-- `game:score_update`. -/
def handleScoreUpdate (s : WSState) (current : String) (oid? : Option String)
    (sc? : Option Int) : WSState × List Out :=
  let out :=
    match oid? with
    | some oid =>
      if oid = "" then []
      else sendToList s oid (.opponentScored (sc?.getD 0) current)
    | none => []
  (s, out)

/-- `game:apply_brisks`. -/
def handleApplyBrisks (s : WSState) (current : String) (oid? : Option String)
    (bc? : Option Int) : WSState × List Out :=
  let out :=
    match oid? with
    | none => []
    | some oid =>
      if oid = "" ∨ oid = current then []
      else
        match lookupA s.clients oid with
        | some tw =>
          if tw ∈ s.openSet then sendToList s oid (.applyBrisksE bc? current) else []
        | none => []
  (s, out)

/-- `game:opponent_undo`. -/
def handleOpponentUndo (s : WSState) (current : String) (oid? : Option String)
    (pts? : Option Int) (bv? : Option Int) : WSState × List Out :=
  let out :=
    match oid? with
    | none => []
    | some oid =>
      if oid = "" ∨ oid = current then []
      else
        match lookupA s.clients oid with
        | some tw =>
          if tw ∈ s.openSet then sendToList s oid (.opponentUndoE pts? bv? current) else []
        | none => []
  (s, out)

/-- `game:reset`. -/
def handleGameReset (s : WSState) (current : String) (oid? : Option String) :
    WSState × List Out :=
  let out :=
    match oid? with
    | none => []
    | some oid =>
      if oid = "" ∨ oid = current then []
      else
        match lookupA s.clients oid with
        | some tw =>
          if tw ∈ s.openSet then sendToList s oid (.gameResetE current) else []
        | none => []
  (s, out)

/-! ## Directory and search -/

def rawEntry (s : WSState) (pid : String) (cw : Nat) : GetAllEntry :=
  match lookupA s.info cw with
  | some c => { playerID := pid, name := c.name, isOnline := decide (cw ∈ s.openSet)
                location := c.location.map (fun l => { x := l.longitude, y := l.latitude }) }
  | none => { playerID := pid, name := none, isOnline := decide (cw ∈ s.openSet), location := none }

/-- `getAllPlayers`: every `clients` entry except the requester, in map
order, with the live online flag. -/
def getAllPlayers (s : WSState) (exclude : String) : List GetAllEntry :=
  (s.clients.filter (fun e => decide (e.1 ≠ exclude))).map (fun e => rawEntry s e.1 e.2)

/-- `players:get_all`. -/
def handleGetAll (s : WSState) (current : String) : WSState × List Out :=
  let safe := (getAllPlayers s current).map
    (fun p => PlayerEntry.mk p.playerID (p.name.getD "") p.isOnline p.location)
  (s, sendToList s current (.playersList safe))

/-- `client.name || ''` read through the channel's info record. -/
def nameOf (s : WSState) (cw : Nat) : String :=
  match lookupA s.info cw with
  | some c => c.name.getD ""
  | none => ""

def searchEntry (s : WSState) (pid : String) (cw : Nat) : PlayerEntry :=
  match lookupA s.info cw with
  | some c => { playerID := pid, name := c.name.getD "", isOnline := decide (cw ∈ s.openSet)
                location := c.location.map (fun l => { x := l.longitude, y := l.latitude }) }
  | none => { playerID := pid, name := "", isOnline := decide (cw ∈ s.openSet), location := none }

/-- The for-loop of `searchPlayers` (substring pass with the 5-result cap). -/
def searchLoop (s : WSState) (exclude term lower : String) (ex4 : Bool) :
    List (String × Nat) → List PlayerEntry → List PlayerEntry
  | [], acc => acc
  | (pid, cw) :: rest, acc =>
    if pid = exclude then searchLoop s exclude term lower ex4 rest acc
    else if ex4 ∧ pid = term then searchLoop s exclude term lower ex4 rest acc
    else
      if strIncludes (strLower pid) lower ∨ strIncludes (strLower (nameOf s cw)) lower then
        let acc2 := acc ++ [searchEntry s pid cw]
        if 5 ≤ acc2.length then acc2 else searchLoop s exclude term lower ex4 rest acc2
      else searchLoop s exclude term lower ex4 rest acc

/-- `searchPlayers`: exact 4-digit match first, then substring matches. -/
def searchPlayers (s : WSState) (exclude term : String) : List PlayerEntry :=
  let lower := strLower term
  let ex4 := is4Digit term
  let start :=
    if ex4 then
      match lookupA s.clients term with
      | some cw => if term = exclude then [] else [searchEntry s term cw]
      | none => []
    else []
  searchLoop s exclude term lower ex4 s.clients start

/-- `players:search`. -/
def handleSearch (s : WSState) (current : String) (t? : Option String) : WSState × List Out :=
  match t? with
  | none => (s, sendToList s current (.searchResults []))
  | some t =>
    if strTrim t = "" then (s, sendToList s current (.searchResults []))
    else (s, sendToList s current (.searchResults (searchPlayers s current (strTrim t))))

/-! ## Dispatch -/

/-- `handleMessage`: find the client by socket, dispatch on the message
type; unknown kinds fall through the switch. -/
def handleMessage (rand : Nat → Nat) (s : WSState) (w : Nat) (m : ClientMsg) :
    WSState × List Out :=
  if w ∈ s.wsToClient then
    match lookupA s.info w with
    | some ci =>
      match m with
      | .requestId name? => handleRequestId rand s w name?
      | .reconnect pid? name? => handleReconnect s w pid? name?
      | .updateName name? => handleUpdateName s w name?
      | .stateUpdate n l o t h => handleStateUpdate s w n l o t h
      | .updateLocation l => (mutInfo s w (fun c => { c with location := l }), [])
      | .gameStart o => handleGameStart s w ci.playerID o
      | .scoreUpdate o sc => handleScoreUpdate s ci.playerID o sc
      | .applyPoints _ _ => (s, [])
      | .applyBrisks o bc => handleApplyBrisks s ci.playerID o bc
      | .opponentUndo o p b => handleOpponentUndo s ci.playerID o p b
      | .gameReset o => handleGameReset s ci.playerID o
      | .getAll => handleGetAll s ci.playerID
      | .search t => handleSearch s ci.playerID t
      | .other _ => (s, [])
    | none => (s, [])
  else (s, [])

/-! ## Connection lifecycle -/

/-- `onConnection`: register the channel with a placeholder identity and
greet it. -/
def connectStep (s : WSState) (w : Nat) : WSState × List Out :=
  let ci : ClientInfo :=
    { playerID := tempID w, name := some "Unknown Player", location := none
      opponentID := none, lastState := none }
  ({ s with info := setA s.info w ci, wsToClient := addNat s.wsToClient w
            openSet := addNat s.openSet w },
   [(w, ServerEvent.connectionEstablished)])

/-- Find the first `clients` entry whose bound channel is `w` (the fallback
scan of the close handler). -/
def findSock : List (String × Nat) → Nat → Option String
  | [], _ => none
  | (pid, cw) :: t, w => if cw = w then some pid else findSock t w

/-- The `ws.on('close')` handler: schedule the debounced offline timer if
the channel held a real (non-placeholder) identity whose `clients` record
still points at this exact channel; otherwise fall back to scanning
`clients` for the first entry bound to this channel. -/
def closeHandler (s : WSState) (w : Nat) : WSState :=
  if w ∈ s.wsToClient then
    { s with wsToClient := removeNat s.wsToClient w
             offlineTimers :=
               match lookupA s.info w with
               | some c =>
                 if ¬ c.playerID.startsWith "temp_" ∧ lookupA s.clients c.playerID = some w then
                   setA s.offlineTimers c.playerID (s.now + 2000)
                 else s.offlineTimers
               | none => s.offlineTimers }
  else
    { s with offlineTimers :=
               match findSock s.clients w with
               | some pid => setA s.offlineTimers pid (s.now + 2000)
               | none => s.offlineTimers }

/-- Body of the offline-debounce timer: unbind the identifier, drop its
timer and online timestamp, then (attempt to) notify the opponent. -/
def timerCallback (s : WSState) (pid : String) : WSState × List Out :=
  let s1 := { s with clients := eraseA s.clients pid
                     offlineTimers := eraseA s.offlineTimers pid
                     lastOnline := eraseA s.lastOnline pid }
  (s1, sendPlayerOfflineOut s1 pid)

/-! ## Environment events and traces -/

/-- Environment events driving the manager: a new connection, a message on
an open channel, a client-side disconnect, dispatch of a pending `close`
event, expiry of a due offline timer, passage of time, and completion of the
in-flight durable write. -/
inductive Ev where
  | connect (w : Nat)
  | msg (w : Nat) (m : ClientMsg)
  | disconnect (w : Nat)
  | runClose (w : Nat)
  | timerFire (pid : String)
  | tick (d : Nat)
  | writeDone
deriving DecidableEq

def applyEvent (rand : Nat → Nat) (s : WSState) : Ev → WSState × List Out
  | .connect w => if hasA s.info w then (s, []) else connectStep s w
  | .msg w m => if w ∈ s.openSet then handleMessage rand s w m else (s, [])
  | .disconnect w =>
    if w ∈ s.openSet then
      ({ s with openSet := removeNat s.openSet w, pendingClose := addNat s.pendingClose w }, [])
    else (s, [])
  | .runClose w =>
    if w ∈ s.pendingClose then
      (closeHandler { s with pendingClose := removeNat s.pendingClose w } w, [])
    else (s, [])
  | .timerFire pid =>
    match lookupA s.offlineTimers pid with
    | some exp => if exp ≤ s.now then timerCallback s pid else (s, [])
    | none => (s, [])
  | .tick d => ({ s with now := s.now + d }, [])
  | .writeDone => (writeDoneStep s, [])

/-- Run a trace of environment events, collecting all emitted events. -/
def execAux (rand : Nat → Nat) (s : WSState) : List Ev → WSState × List Out
  | [] => (s, [])
  | e :: rest =>
    let r := applyEvent rand s e
    let r2 := execAux rand r.1 rest
    (r2.1, r.2 ++ r2.2)

/-- A state is reachable when some random stream and event trace produce it
from the initial (empty) manager. -/
def Reachable (s : WSState) : Prop :=
  ∃ (rand : Nat → Nat) (evs : List Ev), (execAux rand initState evs).1 = s

/-- Number of persist requests whose write has not started yet (the chained
saves queued behind the in-flight write). -/
def debt : Option Nat → Nat
  | none => 0
  | some k => k

/-- Accounting invariant of the serialized persistence: every persist
request is matched by exactly one started write, except for the ones still
queued behind the in-flight write. -/
def pInv (s : WSState) : Prop := s.persistReqs = s.writeCount + debt s.saving

/-- No offline notification occurs in the given emission list. -/
def noOffline (l : List Out) : Prop :=
  ∀ x ∈ l, ∀ p, x.2 ≠ ServerEvent.playerOffline p

/-! ## Concrete states and traces used to exercise the model -/

/-- A fixed random stream (always draws 0, so the first candidate identifier
is `"1000"`). -/
def r0 : Nat → Nat := fun _ => 0

/-- Two bound, open, mutually paired players: `"1111"` on channel 0 and
`"2222"` on channel 1. -/
def csA : WSState :=
  { openSet := [0, 1], pendingClose := [], wsToClient := [0, 1]
    info := [(0, { playerID := "1111", name := some "A", location := none
                   opponentID := some "2222", lastState := none }),
             (1, { playerID := "2222", name := some "B", location := none
                   opponentID := some "1111", lastState := none })]
    clients := [("1111", 0), ("2222", 1)]
    usedPlayerIDs := ["1111", "2222"], offlineTimers := [], lastOnline := []
    saving := none, persistReqs := 0, writeCount := 0, now := 0, randIdx := 0 }

/-- `csA` plus a freshly connected channel 5 still holding its placeholder
identity. -/
def csT : WSState :=
  { csA with openSet := [0, 1, 5], wsToClient := [0, 1, 5]
             info := csA.info ++ [(5, { playerID := tempID 5, name := some "Unknown Player"
                                        location := none, opponentID := none
                                        lastState := none })] }

/-- `csA` after channel 1 disconnected and its `close` handler ran: channel 1
is no longer open or registered, and the offline-debounce timer for
`"2222"` is pending (expiry 2000). -/
def csB : WSState :=
  { csA with openSet := [0], wsToClient := [0], offlineTimers := [("2222", 2000)] }

/-- `csB` at a time past the pending timer's expiry. -/
def csC : WSState := { csB with now := 2500 }

/-- Two `announceOnline` calls for `"1111"` in state `csA`, the first at
absolute time `b`, the second `gap` milliseconds later; returns everything
emitted. -/
def twoAnnounce (b gap : Nat) : List Out :=
  let s0 := { csA with now := b, lastOnline := [] }
  let r1 := sendPlayerOnlineCore s0 "1111"
  let s1 := { s0 with lastOnline := r1.1, now := b + gap }
  let r2 := sendPlayerOnlineCore s1 "1111"
  r1.2 ++ r2.2

/-- Trace: bind `"1111"` (channel 0) and `"2222"` (channel 1), close
channel 1 (debounce timer pending), then channel 0 asks for all players. -/
def traceGetAll : List Ev :=
  [.connect 0, .msg 0 (.reconnect (some "1111") (some "A")),
   .connect 1, .msg 1 (.reconnect (some "2222") (some "B")),
   .disconnect 1, .runClose 1, .msg 0 .getAll]

/-- Trace: bind `"3333"`, `"3344"`, `"5555"`, then `"3333"` searches for
`"33"`. -/
def traceSearch : List Ev :=
  [.connect 0, .msg 0 (.reconnect (some "3333") (some "C")),
   .connect 1, .msg 1 (.reconnect (some "3344") (some "D")),
   .connect 2, .msg 2 (.reconnect (some "5555") (some "E")),
   .msg 0 (.search (some "33"))]

/-! ## Lemmas about the map and set helpers -/

theorem lookupA_setA_self {α β : Type} [DecidableEq α] (l : List (α × β)) (k : α) (v : β) :
    lookupA (setA l k v) k = some v := by
  induction l with
  | nil => simp [setA, lookupA]
  | cons e t ih =>
    obtain ⟨k', v'⟩ := e
    by_cases h : k' = k
    · subst h; simp [setA, lookupA]
    · simp [setA, lookupA, h, ih]

theorem lookupA_setA_ne {α β : Type} [DecidableEq α] (l : List (α × β)) (k a : α) (v : β)
    (h : k ≠ a) : lookupA (setA l k v) a = lookupA l a := by
  induction l with
  | nil => simp [setA, lookupA, h]
  | cons e t ih =>
    obtain ⟨k', v'⟩ := e
    by_cases hk : k' = k
    · subst hk; simp [setA, lookupA, h]
    · simp [setA, lookupA, hk, ih]

theorem lookupA_isSome_setA {α β : Type} [DecidableEq α] (l : List (α × β)) (k a : α) (v : β)
    (h : (lookupA l a).isSome) : (lookupA (setA l k v) a).isSome := by
  by_cases hk : k = a
  · subst hk; rw [lookupA_setA_self]; rfl
  · rwa [lookupA_setA_ne l k a v hk]

theorem mem_keys_setA {α β : Type} [DecidableEq α] (l : List (α × β)) (k a : α) (v : β) :
    a ∈ (setA l k v).map Prod.fst ↔ a = k ∨ a ∈ l.map Prod.fst := by
  induction l with
  | nil => simp [setA]
  | cons e t ih =>
    obtain ⟨k', v'⟩ := e
    by_cases h : k' = k
    · subst h; simp [setA] <;> tauto
    · simp [setA, h, ih] <;> tauto

theorem keysNodup_setA {α β : Type} [DecidableEq α] (l : List (α × β)) (k : α) (v : β)
    (h : (l.map Prod.fst).Nodup) : ((setA l k v).map Prod.fst).Nodup := by
  induction l with
  | nil => simp [setA]
  | cons e t ih =>
    obtain ⟨k', v'⟩ := e
    simp only [List.map_cons, List.nodup_cons] at h
    by_cases hk : k' = k
    · subst hk; simpa [setA, List.nodup_cons] using h
    · simp only [setA]
      rw [if_neg hk]
      simp only [List.map_cons, List.nodup_cons]
      refine ⟨fun hm => ?_, ih h.2⟩
      rcases (mem_keys_setA t k k' v).mp hm with h1 | h2
      · exact hk h1
      · exact h.1 h2

theorem mem_keys_eraseA {α β : Type} [DecidableEq α] (l : List (α × β)) (k a : α)
    (h : a ∈ (eraseA l k).map Prod.fst) : a ∈ l.map Prod.fst := by
  induction l with
  | nil => simpa [eraseA] using h
  | cons e t ih =>
    obtain ⟨k', v'⟩ := e
    by_cases hk : k' = k
    · subst hk
      simp only [eraseA, if_pos rfl] at h
      simp only [List.map_cons, List.mem_cons]
      exact Or.inr (ih h)
    · rw [show eraseA ((k', v') :: t) k = (k', v') :: eraseA t k by simp [eraseA, hk]] at h
      simp only [List.map_cons, List.mem_cons] at h ⊢
      rcases h with h | h
      · exact Or.inl h
      · exact Or.inr (ih h)

theorem keysNodup_eraseA {α β : Type} [DecidableEq α] (l : List (α × β)) (k : α)
    (h : (l.map Prod.fst).Nodup) : ((eraseA l k).map Prod.fst).Nodup := by
  induction l with
  | nil => simp [eraseA]
  | cons e t ih =>
    obtain ⟨k', v'⟩ := e
    simp only [List.map_cons, List.nodup_cons] at h
    by_cases hk : k' = k
    · subst hk
      simp only [eraseA, if_pos rfl]
      exact ih h.2
    · rw [show eraseA ((k', v') :: t) k = (k', v') :: eraseA t k by simp [eraseA, hk]]
      simp only [List.map_cons, List.nodup_cons]
      exact ⟨fun hm => h.1 (mem_keys_eraseA t k k' hm), ih h.2⟩

theorem lookupA_eraseA_self {α β : Type} [DecidableEq α] (l : List (α × β)) (k : α) :
    lookupA (eraseA l k) k = none := by
  induction l with
  | nil => simp [eraseA, lookupA]
  | cons e t ih =>
    obtain ⟨k', v'⟩ := e
    by_cases hk : k' = k
    · subst hk; simpa [eraseA, lookupA] using ih
    · rw [show eraseA ((k', v') :: t) k = (k', v') :: eraseA t k by simp [eraseA, hk]]
      simpa [lookupA, hk] using ih

theorem mem_removeNat (l : List Nat) (w x : Nat) :
    x ∈ removeNat l w ↔ x ∈ l ∧ x ≠ w := by
  simp [removeNat, List.mem_filter]

theorem not_mem_removeNat_self (l : List Nat) (w : Nat) : w ∉ removeNat l w := by
  simp [mem_removeNat]

theorem mem_addNat (l : List Nat) (w x : Nat) :
    x ∈ addNat l w ↔ x ∈ l ∨ x = w := by
  unfold addNat
  split
  · rename_i h; constructor
    · exact Or.inl
    · rintro (hx | rfl) <;> [exact hx; exact h]
  · simp [List.mem_append]

theorem memStr_iff_mem (l : List String) (x : String) : memStr l x = true ↔ x ∈ l := by
  induction l with
  | nil => simp [memStr]
  | cons a t ih =>
    unfold memStr
    by_cases h : a = x
    · subst h; simp
    · rw [if_neg h, ih]
      constructor
      · exact fun hx => List.mem_cons_of_mem a hx
      · intro hx
        rcases List.mem_cons.mp hx with hx | hx
        · exact absurd hx.symm h
        · exact hx

theorem memStr_addSet_self (l : List String) (x : String) :
    memStr (addSet l x) x = true := by
  unfold addSet
  split
  · assumption
  · rw [memStr_iff_mem]; simp

theorem lookupA_eraseA_ne {α β : Type} [DecidableEq α] (l : List (α × β)) (k a : α)
    (h : k ≠ a) : lookupA (eraseA l k) a = lookupA l a := by
  induction l with
  | nil => simp [eraseA]
  | cons e t ih =>
    obtain ⟨k', v'⟩ := e
    by_cases hk : k' = k
    · rw [hk]
      rw [show eraseA ((k, v') :: t) k = eraseA t k by simp [eraseA]]
      rw [show lookupA ((k, v') :: t) a = lookupA t a by simp [lookupA, h]]
      exact ih
    · rw [show eraseA ((k', v') :: t) k = (k', v') :: eraseA t k by simp [eraseA, hk]]
      by_cases ha : k' = a
      · subst ha; simp [lookupA]
      · simp [lookupA, ha, ih]

theorem genAux_fresh (used ck : List String) (rand : Nat → Nat) :
    ∀ fuel i c i', genAux used ck rand i fuel = (some c, i') →
      memStr used c = false ∧ memStr ck c = false := by
  intro fuel
  induction fuel with
  | zero => intro i c i' h; simp [genAux] at h
  | succ n ih =>
    intro i c i' h
    simp only [genAux] at h
    split at h
    · exact ih (i + 1) c i' h
    · rename_i hcond
      simp only [Prod.mk.injEq, Option.some.injEq] at h
      obtain ⟨rfl, -⟩ := h
      simp only [Bool.or_eq_true, not_or, Bool.not_eq_true] at hcond
      exact hcond

/-! ## Shape lemmas for the handlers -/

theorem handleReconnect_valid (s : WSState) (w : Nat) (pid : String) (nm : Option String)
    (h4 : is4Digit pid = true) :
    (handleReconnect s w (some pid) nm).1.clients = setA s.clients pid w ∧
    (handleReconnect s w (some pid) nm).1.offlineTimers = eraseA s.offlineTimers pid ∧
    (handleReconnect s w (some pid) nm).1.usedPlayerIDs = addSet s.usedPlayerIDs pid ∧
    (handleReconnect s w (some pid) nm).1.persistReqs = s.persistReqs + 1 ∧
    (handleReconnect s w (some pid) nm).1.saving = (requestSave s).saving ∧
    (handleReconnect s w (some pid) nm).1.writeCount = (requestSave s).writeCount ∧
    (∃ rest, (handleReconnect s w (some pid) nm).2 =
      (w, ServerEvent.reconnected pid) :: rest) ∧
    (∀ pw, lookupA s.clients pid = some pw → pw ≠ w →
      pw ∉ (handleReconnect s w (some pid) nm).1.openSet ∧
      pw ∉ (handleReconnect s w (some pid) nm).1.wsToClient) := by
  unfold handleReconnect
  dsimp only
  rw [if_pos h4]
  dsimp only
  split
  · rename_i pw' heq
    split
    · rename_i hpww
      refine ⟨rfl, rfl, rfl, rfl, rfl, rfl, ⟨_, rfl⟩, ?_⟩
      intro pw hpw hne
      rw [hpw] at heq
      cases heq
      exact absurd hpww hne
    · rename_i hpww
      refine ⟨rfl, rfl, rfl, rfl, rfl, rfl, ⟨_, rfl⟩, ?_⟩
      intro pw hpw hne
      rw [hpw] at heq
      cases heq
      constructor
      · dsimp [dropWs, forceClose, mutInfo, requestSave]
        split
        · exact not_mem_removeNat_self _ _
        · assumption
      · dsimp [dropWs, forceClose, mutInfo, requestSave]
        rw [mem_addNat]
        push_neg
        exact ⟨not_mem_removeNat_self _ _, hne⟩
  · rename_i heq
    refine ⟨rfl, rfl, rfl, rfl, rfl, rfl, ⟨_, rfl⟩, ?_⟩
    intro pw hpw hne
    rw [hpw] at heq
    cases heq

theorem handleMessage_clients (rand : Nat → Nat) (s : WSState) (w : Nat) (m : ClientMsg) :
    (handleMessage rand s w m).1.clients = s.clients ∨
    ∃ pid, (handleMessage rand s w m).1.clients = setA s.clients pid w := by
  unfold handleMessage
  split
  · split
    · cases m with
      | requestId n =>
        unfold handleRequestId
        rcases hg : genAux s.usedPlayerIDs (s.clients.map Prod.fst) rand s.randIdx 1000
          with ⟨o, i'⟩
        cases o with
        | none => left; rfl
        | some id =>
          right
          refine ⟨id, ?_⟩
          dsimp only
          split
          · split <;> rfl
          · rfl
      | reconnect p n =>
        cases p with
        | none => left; rfl
        | some pid =>
          by_cases h4 : is4Digit pid = true
          · right; exact ⟨pid, (handleReconnect_valid s w pid n h4).1⟩
          · left
            unfold handleReconnect
            dsimp only
            rw [if_neg h4]
      | updateName n => left; rfl
      | stateUpdate a b c d e => left; rfl
      | updateLocation l => left; rfl
      | gameStart o =>
        left
        unfold handleGameStart
        rcases o with _ | oid
        · rfl
        · dsimp only
          split
          · rfl
          · split <;> rfl
      | scoreUpdate o sc => left; rfl
      | applyPoints o p => left; rfl
      | applyBrisks o b => left; rfl
      | opponentUndo o p b => left; rfl
      | gameReset o => left; rfl
      | getAll => left; rfl
      | search t =>
        left
        unfold handleSearch
        rcases t with _ | t
        · rfl
        · dsimp only
          split <;> rfl
      | other t => left; rfl
    · left; rfl
  · left; rfl

theorem applyEvent_clients (rand : Nat → Nat) (s : WSState) (e : Ev) :
    (applyEvent rand s e).1.clients = s.clients ∨
    (∃ pid w, (applyEvent rand s e).1.clients = setA s.clients pid w) ∨
    (∃ pid exp, e = Ev.timerFire pid ∧ lookupA s.offlineTimers pid = some exp ∧
      exp ≤ s.now ∧ (applyEvent rand s e).1.clients = eraseA s.clients pid) := by
  cases e with
  | connect w =>
    unfold applyEvent
    dsimp only
    split
    · left; rfl
    · left; rfl
  | msg w m =>
    unfold applyEvent
    dsimp only
    split
    · rcases handleMessage_clients rand s w m with h | ⟨pid, h⟩
      · left; exact h
      · right; left; exact ⟨pid, w, h⟩
    · left; rfl
  | disconnect w =>
    unfold applyEvent
    dsimp only
    split
    · left; rfl
    · left; rfl
  | runClose w =>
    unfold applyEvent
    dsimp only
    split
    · left
      unfold closeHandler
      split <;> rfl
    · left; rfl
  | timerFire pid =>
    unfold applyEvent
    dsimp only
    split
    · rename_i exp heq
      split
      · rename_i hle
        right; right
        exact ⟨pid, exp, rfl, heq, hle, rfl⟩
      · left; rfl
    · left; rfl
  | tick d => left; rfl
  | writeDone => left; rfl

/-! ## Reachability induction -/

theorem reachable_ind (P : WSState → Prop) (h0 : P initState)
    (hstep : ∀ rand s e, P s → P (applyEvent rand s e).1) :
    ∀ s, Reachable s → P s := by
  rintro s ⟨rand, evs, rfl⟩
  suffices h : ∀ evs s, P s → P (execAux rand s evs).1 from h evs initState h0
  intro evs
  induction evs with
  | nil => intro s hs; exact hs
  | cons e rest ih => intro s hs; exact ih _ (hstep rand s e hs)

theorem reachable_keysNodup : ∀ s, Reachable s → (s.clients.map Prod.fst).Nodup := by
  refine reachable_ind _ ?_ ?_
  · simp [initState]
  · intro rand s e hs
    rcases applyEvent_clients rand s e with h | ⟨pid, w, h⟩ | ⟨pid, exp, -, -, -, h⟩
    · rwa [h]
    · rw [h]; exact keysNodup_setA _ _ _ hs
    · rw [h]; exact keysNodup_eraseA _ _ hs

/-! ## Persistence accounting -/

theorem requestSave_pInv (s : WSState) (h : pInv s) : pInv (requestSave s) := by
  unfold pInv requestSave debt at *
  rcases hs : s.saving with _ | k <;> simp [hs] at h ⊢ <;> omega

theorem writeDoneStep_pInv (s : WSState) (h : pInv s) : pInv (writeDoneStep s) := by
  unfold pInv writeDoneStep debt at *
  rcases hs : s.saving with _ | (_ | k) <;> simp [hs] at h ⊢ <;> omega

theorem handleMessage_pInv (rand : Nat → Nat) (s : WSState) (w : Nat) (m : ClientMsg)
    (h : pInv s) : pInv (handleMessage rand s w m).1 := by
  unfold handleMessage
  split
  · split
    · cases m with
      | requestId n =>
        unfold handleRequestId
        rcases hg : genAux s.usedPlayerIDs (s.clients.map Prod.fst) rand s.randIdx 1000
          with ⟨o, i'⟩
        cases o with
        | none => exact h
        | some id =>
          dsimp only
          split
          · split
            · exact requestSave_pInv _ h
            · exact requestSave_pInv _ h
          · exact requestSave_pInv _ h
      | reconnect p n =>
        cases p with
        | none => exact h
        | some pid =>
          by_cases h4 : is4Digit pid = true
          · obtain ⟨-, -, -, hp, hsv, hwc, -, -⟩ := handleReconnect_valid s w pid n h4
            unfold pInv at h ⊢
            rw [hp, hsv, hwc]
            exact requestSave_pInv s h
          · unfold handleReconnect
            dsimp only
            rw [if_neg h4]
            exact h
      | updateName n => exact h
      | stateUpdate a b c d e => exact h
      | updateLocation l => exact h
      | gameStart o =>
        unfold handleGameStart
        rcases o with _ | oid
        · exact h
        · dsimp only
          split
          · exact h
          · split
            · exact h
            · exact h
      | scoreUpdate o sc => exact h
      | applyPoints o p => exact h
      | applyBrisks o b => exact h
      | opponentUndo o p b => exact h
      | gameReset o => exact h
      | getAll => exact h
      | search t =>
        unfold handleSearch
        rcases t with _ | t
        · exact h
        · dsimp only
          split
          · exact h
          · exact h
      | other t => exact h
    · exact h
  · exact h

theorem applyEvent_pInv (rand : Nat → Nat) (s : WSState) (e : Ev) (h : pInv s) :
    pInv (applyEvent rand s e).1 := by
  cases e with
  | connect w =>
    unfold applyEvent
    dsimp only
    split
    · exact h
    · exact h
  | msg w m =>
    unfold applyEvent
    dsimp only
    split
    · exact handleMessage_pInv rand s w m h
    · exact h
  | disconnect w =>
    unfold applyEvent
    dsimp only
    split
    · exact h
    · exact h
  | runClose w =>
    unfold applyEvent
    dsimp only
    split
    · unfold closeHandler
      split
      · exact h
      · split
        · exact h
        · exact h
    · exact h
  | timerFire pid =>
    unfold applyEvent
    dsimp only
    split
    · split
      · exact h
      · exact h
    · exact h
  | tick d => exact h
  | writeDone => exact writeDoneStep_pInv s h

theorem reachable_pInv : ∀ s, Reachable s → pInv s := by
  refine reachable_ind _ ?_ ?_
  · simp [pInv, initState, debt]
  · intro rand s e hs
    exact applyEvent_pInv rand s e hs

/-! ## No offline notification is ever emitted -/

theorem noOffline_nil : noOffline [] := by
  intro x hx p
  simp at hx

theorem noOffline_cons {x : Out} {t : List Out}
    (hx : ∀ p, x.2 ≠ ServerEvent.playerOffline p) (ht : noOffline t) :
    noOffline (x :: t) := by
  intro y hy p
  rcases List.mem_cons.mp hy with rfl | hy
  · exact hx p
  · exact ht y hy p

theorem noOffline_append {a b : List Out} (ha : noOffline a) (hb : noOffline b) :
    noOffline (a ++ b) := by
  intro x hx p
  rcases List.mem_append.mp hx with h | h
  · exact ha x h p
  · exact hb x h p

theorem sendToList_shape (s : WSState) (pid : String) (ev : ServerEvent) :
    sendToList s pid ev = [] ∨ ∃ t, sendToList s pid ev = [(t, ev)] := by
  unfold sendToList
  split
  · split
    · right; exact ⟨_, rfl⟩
    · left; rfl
  · left; rfl

theorem noOffline_sendToList (s : WSState) (pid : String) (ev : ServerEvent)
    (h : ∀ p, ev ≠ ServerEvent.playerOffline p) : noOffline (sendToList s pid ev) := by
  rcases sendToList_shape s pid ev with h0 | ⟨t, h0⟩ <;> rw [h0]
  · exact noOffline_nil
  · exact noOffline_cons h noOffline_nil

theorem noOffline_online (s : WSState) (pid : String) :
    noOffline (sendPlayerOnlineCore s pid).2 := by
  unfold sendPlayerOnlineCore
  dsimp only
  repeat' split
  all_goals
    first
      | exact noOffline_nil
      | exact noOffline_sendToList _ _ _ (fun p hp => ServerEvent.noConfusion hp)

theorem timerCallback_out (s : WSState) (pid : String) : (timerCallback s pid).2 = [] := by
  unfold timerCallback
  dsimp only
  unfold sendPlayerOfflineOut
  rw [show lookupA (eraseA s.clients pid) pid = none from lookupA_eraseA_self _ _]

theorem handleMessage_noOffline (rand : Nat → Nat) (s : WSState) (w : Nat) (m : ClientMsg) :
    noOffline (handleMessage rand s w m).2 := by
  unfold handleMessage
  split
  · split
    · cases m with
      | requestId n =>
        unfold handleRequestId
        rcases hg : genAux s.usedPlayerIDs (s.clients.map Prod.fst) rand s.randIdx 1000
          with ⟨o, i'⟩
        cases o with
        | none => exact noOffline_nil
        | some id =>
          dsimp only
          exact noOffline_cons (fun p hp => ServerEvent.noConfusion hp) (noOffline_online _ _)
      | reconnect p n =>
        cases p with
        | none => exact noOffline_cons (fun p hp => ServerEvent.noConfusion hp) noOffline_nil
        | some pid =>
          unfold handleReconnect
          dsimp only
          split
          · dsimp only
            refine noOffline_cons (fun p hp => ServerEvent.noConfusion hp)
              (noOffline_append (noOffline_online _ _) ?_)
            repeat' split
            all_goals
              first
                | exact noOffline_nil
                | exact noOffline_sendToList _ _ _ (fun p hp => ServerEvent.noConfusion hp)
          · exact noOffline_cons (fun p hp => ServerEvent.noConfusion hp) noOffline_nil
      | updateName n =>
        unfold handleUpdateName
        dsimp only
        repeat' split
        all_goals
          first
            | exact noOffline_nil
            | exact noOffline_sendToList _ _ _ (fun p hp => ServerEvent.noConfusion hp)
      | stateUpdate a b c d e => exact noOffline_nil
      | updateLocation l => exact noOffline_nil
      | gameStart o =>
        unfold handleGameStart
        rcases o with _ | oid
        · exact noOffline_cons (fun p hp => ServerEvent.noConfusion hp) noOffline_nil
        · dsimp only
          split
          · exact noOffline_cons (fun p hp => ServerEvent.noConfusion hp) noOffline_nil
          · split
            · exact noOffline_append
                (noOffline_sendToList _ _ _ (fun p hp => ServerEvent.noConfusion hp))
                (noOffline_sendToList _ _ _ (fun p hp => ServerEvent.noConfusion hp))
            · exact noOffline_nil
      | scoreUpdate o sc =>
        unfold handleScoreUpdate
        dsimp only
        repeat' split
        all_goals
          first
            | exact noOffline_nil
            | exact noOffline_sendToList _ _ _ (fun p hp => ServerEvent.noConfusion hp)
      | applyPoints o p => exact noOffline_nil
      | applyBrisks o b =>
        unfold handleApplyBrisks
        dsimp only
        repeat' split
        all_goals
          first
            | exact noOffline_nil
            | exact noOffline_sendToList _ _ _ (fun p hp => ServerEvent.noConfusion hp)
      | opponentUndo o p b =>
        unfold handleOpponentUndo
        dsimp only
        repeat' split
        all_goals
          first
            | exact noOffline_nil
            | exact noOffline_sendToList _ _ _ (fun p hp => ServerEvent.noConfusion hp)
      | gameReset o =>
        unfold handleGameReset
        dsimp only
        repeat' split
        all_goals
          first
            | exact noOffline_nil
            | exact noOffline_sendToList _ _ _ (fun p hp => ServerEvent.noConfusion hp)
      | getAll =>
        exact noOffline_sendToList _ _ _ (fun p hp => ServerEvent.noConfusion hp)
      | search t =>
        unfold handleSearch
        rcases t with _ | t
        · exact noOffline_sendToList _ _ _ (fun p hp => ServerEvent.noConfusion hp)
        · dsimp only
          split
          · exact noOffline_sendToList _ _ _ (fun p hp => ServerEvent.noConfusion hp)
          · exact noOffline_sendToList _ _ _ (fun p hp => ServerEvent.noConfusion hp)
      | other t => exact noOffline_nil
    · exact noOffline_nil
  · exact noOffline_nil

theorem applyEvent_noOffline (rand : Nat → Nat) (s : WSState) (e : Ev) :
    noOffline (applyEvent rand s e).2 := by
  cases e with
  | connect w =>
    unfold applyEvent
    dsimp only
    split
    · exact noOffline_nil
    · exact noOffline_cons (fun p hp => ServerEvent.noConfusion hp) noOffline_nil
  | msg w m =>
    unfold applyEvent
    dsimp only
    split
    · exact handleMessage_noOffline rand s w m
    · exact noOffline_nil
  | disconnect w =>
    unfold applyEvent
    dsimp only
    split
    · exact noOffline_nil
    · exact noOffline_nil
  | runClose w =>
    unfold applyEvent
    dsimp only
    split
    · exact noOffline_nil
    · exact noOffline_nil
  | timerFire pid =>
    unfold applyEvent
    dsimp only
    split
    · split
      · rw [show (timerCallback s pid).2 = [] from timerCallback_out s pid]
        exact noOffline_nil
      · exact noOffline_nil
    · exact noOffline_nil
  | tick d => exact noOffline_nil
  | writeDone => exact noOffline_nil

theorem execAux_noOffline (rand : Nat → Nat) : ∀ (evs : List Ev) (s : WSState),
    noOffline (execAux rand s evs).2 := by
  intro evs
  induction evs with
  | nil => intro s; exact noOffline_nil
  | cons e rest ih =>
    intro s
    exact noOffline_append (applyEvent_noOffline rand s e) (ih _)

/-! ## Dispatch reduction -/

theorem handleMessage_at (rand : Nat → Nat) (s : WSState) (w : Nat) (ci : ClientInfo)
    (hw : w ∈ s.wsToClient) (hi : lookupA s.info w = some ci) (m : ClientMsg) :
    handleMessage rand s w m =
      (match m with
       | .requestId n => handleRequestId rand s w n
       | .reconnect p n => handleReconnect s w p n
       | .updateName n => handleUpdateName s w n
       | .stateUpdate a b c d e => handleStateUpdate s w a b c d e
       | .updateLocation l => (mutInfo s w (fun c => { c with location := l }), [])
       | .gameStart o => handleGameStart s w ci.playerID o
       | .scoreUpdate o sc => handleScoreUpdate s ci.playerID o sc
       | .applyPoints _ _ => (s, [])
       | .applyBrisks o bc => handleApplyBrisks s ci.playerID o bc
       | .opponentUndo o p b => handleOpponentUndo s ci.playerID o p b
       | .gameReset o => handleGameReset s ci.playerID o
       | .getAll => handleGetAll s ci.playerID
       | .search t => handleSearch s ci.playerID t
       | .other _ => (s, [])) := by
  unfold handleMessage
  rw [if_pos hw, hi]

theorem handleMessage_reconnect (rand : Nat → Nat) (s : WSState) (w : Nat)
    (hw : w ∈ s.wsToClient) (hsome : (lookupA s.info w).isSome = true)
    (p n : Option String) :
    handleMessage rand s w (.reconnect p n) = handleReconnect s w p n := by
  rcases hi : lookupA s.info w with _ | ci
  · rw [hi] at hsome; simp at hsome
  · rw [handleMessage_at rand s w ci hw hi]

/-! ## Claim C1 -/

/-- C1: at most one live session per identifier, always.  (i) In every
reachable state each identifier occurs at most once among the `clients` map
keys, so at most one channel is bound to it.  (ii) The generation loop of
`generateUniquePlayerID` never returns an identifier already in the durable
used set or currently bound.  (iii) A valid reconnect that binds a channel
to an identifier held by a *different* channel force-closes the prior
holder, removes it from the socket→client map, and installs the new
binding. -/
theorem C1_unique_live_session :
    (∀ s, Reachable s → ∀ pid : String, (s.clients.map Prod.fst).count pid ≤ 1)
    ∧ (∀ (used ck : List String) (rand : Nat → Nat) (fuel i : Nat) (c : String) (i' : Nat),
        genAux used ck rand i fuel = (some c, i') →
        memStr used c = false ∧ memStr ck c = false)
    ∧ (∀ (rand : Nat → Nat) (s : WSState) (w : Nat) (pid : String) (nm : Option String)
        (pw : Nat), w ∈ s.wsToClient → (lookupA s.info w).isSome = true →
        is4Digit pid = true → lookupA s.clients pid = some pw → pw ≠ w →
        pw ∉ (handleMessage rand s w (.reconnect (some pid) nm)).1.openSet ∧
        pw ∉ (handleMessage rand s w (.reconnect (some pid) nm)).1.wsToClient ∧
        lookupA (handleMessage rand s w (.reconnect (some pid) nm)).1.clients pid = some w) := by
  refine ⟨?_, ?_, ?_⟩
  · intro s hs pid
    exact List.nodup_iff_count_le_one.mp (reachable_keysNodup s hs) pid
  · intro used ck rand fuel i c i' h
    exact genAux_fresh used ck rand fuel i c i' h
  · intro rand s w pid nm pw hw hsome h4 hpw hne
    rw [handleMessage_reconnect rand s w hw hsome]
    obtain ⟨hcl, -, -, -, -, -, -, hforce⟩ := handleReconnect_valid s w pid nm h4
    refine ⟨(hforce pw hpw hne).1, (hforce pw hpw hne).2, ?_⟩
    rw [hcl]
    exact lookupA_setA_self _ _ _

/-- Witness for C1 at concrete inputs: the empty reachable state, a first
draw from the generator, and a reconnect of `"1111"` on channel 1 while
channel 0 holds it. -/
theorem C1_unique_live_session_witness :
    (initState.clients.map Prod.fst).count "1111" ≤ 1 ∧
    (memStr [] "1000" = false ∧ memStr [] "1000" = false) ∧
    (0 ∉ (handleMessage r0 csA 1 (.reconnect (some "1111") (some "X"))).1.openSet ∧
     0 ∉ (handleMessage r0 csA 1 (.reconnect (some "1111") (some "X"))).1.wsToClient ∧
     lookupA (handleMessage r0 csA 1 (.reconnect (some "1111") (some "X"))).1.clients "1111" =
       some 1) :=
  ⟨C1_unique_live_session.1 initState ⟨r0, [], rfl⟩ "1111",
   C1_unique_live_session.2.1 [] [] r0 1000 0 "1000" 1 (by decide),
   C1_unique_live_session.2.2 r0 csA 1 "1111" (some "X") 0 (by decide) (by decide) (by decide)
     (by decide) (by decide)⟩

/-! ## Claim C2 -/

/-- C2: reconnect validation is exactly the format check.  If the payload
identifier matches `^\d{4}$` (no other condition — the identifier need not
ever have been issued), the pending offline timer is cancelled, the channel
is bound, the identifier enters the durable set, one persist is requested,
the sender is told "reconnected", and a different prior holder is
force-closed and unmapped.  Otherwise the handler replies "invalid
identifier" and leaves the state completely unchanged. -/
theorem C2_reconnect_format_only :
    ∀ (rand : Nat → Nat) (s : WSState) (w : Nat),
      w ∈ s.wsToClient → (lookupA s.info w).isSome = true →
      (∀ (pid : String) (nm : Option String), is4Digit pid = true →
        lookupA (handleMessage rand s w (.reconnect (some pid) nm)).1.offlineTimers pid =
          none ∧
        lookupA (handleMessage rand s w (.reconnect (some pid) nm)).1.clients pid = some w ∧
        memStr (handleMessage rand s w (.reconnect (some pid) nm)).1.usedPlayerIDs pid =
          true ∧
        (handleMessage rand s w (.reconnect (some pid) nm)).1.persistReqs =
          s.persistReqs + 1 ∧
        (∃ rest, (handleMessage rand s w (.reconnect (some pid) nm)).2 =
          (w, ServerEvent.reconnected pid) :: rest) ∧
        (∀ pw, lookupA s.clients pid = some pw → pw ≠ w →
          pw ∉ (handleMessage rand s w (.reconnect (some pid) nm)).1.openSet ∧
          pw ∉ (handleMessage rand s w (.reconnect (some pid) nm)).1.wsToClient)) ∧
      (∀ (pid? : Option String) (nm : Option String),
        (match pid? with | some p => is4Digit p | none => false) = false →
        handleMessage rand s w (.reconnect pid? nm) = (s, [(w, ServerEvent.invalidId)])) := by
  intro rand s w hw hsome
  constructor
  · intro pid nm h4
    rw [handleMessage_reconnect rand s w hw hsome]
    obtain ⟨hcl, hti, hus, hpr, -, -, hrest, hforce⟩ := handleReconnect_valid s w pid nm h4
    refine ⟨?_, ?_, ?_, hpr, hrest, hforce⟩
    · rw [hti]; exact lookupA_eraseA_self _ _
    · rw [hcl]; exact lookupA_setA_self _ _ _
    · rw [hus]; exact memStr_addSet_self _ _
  · intro pid? nm hbad
    rw [handleMessage_reconnect rand s w hw hsome]
    rcases pid? with _ | p
    · rfl
    · have hb : is4Digit p = false := hbad
      unfold handleReconnect
      dsimp only
      rw [if_neg (by simp [hb])]

/-- Witness for C2: channel 0 of `csA` rebinds to `"2222"` (held by open
channel 1, which gets force-closed), and a malformed identifier is
rejected without any state change. -/
theorem C2_reconnect_format_only_witness :
    lookupA (handleMessage r0 csA 0 (.reconnect (some "2222") none)).1.offlineTimers
      "2222" = none ∧
    lookupA (handleMessage r0 csA 0 (.reconnect (some "2222") none)).1.clients "2222" =
      some 0 ∧
    memStr (handleMessage r0 csA 0 (.reconnect (some "2222") none)).1.usedPlayerIDs
      "2222" = true ∧
    (handleMessage r0 csA 0 (.reconnect (some "2222") none)).1.persistReqs =
      csA.persistReqs + 1 ∧
    (0, ServerEvent.reconnected "2222") ∈
      (handleMessage r0 csA 0 (.reconnect (some "2222") none)).2 ∧
    1 ∉ (handleMessage r0 csA 0 (.reconnect (some "2222") none)).1.openSet ∧
    1 ∉ (handleMessage r0 csA 0 (.reconnect (some "2222") none)).1.wsToClient ∧
    handleMessage r0 csA 0 (.reconnect (some "12ab") none) =
      (csA, [(0, ServerEvent.invalidId)]) := by
  obtain ⟨hvalid, hinvalid⟩ := C2_reconnect_format_only r0 csA 0 (by decide) (by decide)
  obtain ⟨h1, h2, h3, h4, ⟨rest, h5⟩, h6⟩ := hvalid "2222" none (by decide)
  obtain ⟨h7, h8⟩ := h6 1 (by decide) (by decide)
  exact ⟨h1, h2, h3, h4, by rw [h5]; exact List.mem_cons_self _ _, h7, h8,
    hinvalid (some "12ab") none (by decide)⟩

/-! ## Claim C3 -/

/-- C3: offline suppression.  (i) A valid reconnect for an identifier
removes its pending offline-debounce timer.  (ii) No step of the system ever
emits a `player:offline` event on any channel (in particular none between a
close and a quick reconnect): the timer callback deletes the `clients` entry
before `sendPlayerOffline` consults it, so the notification is unreachable.
(iii) The unbind — removal of an identifier from the live-session map —
happens only through expiry of a due offline timer for exactly that
identifier. -/
theorem C3_offline_suppression :
    (∀ (rand : Nat → Nat) (s : WSState) (w : Nat) (pid : String) (nm : Option String),
      w ∈ s.wsToClient → (lookupA s.info w).isSome = true → is4Digit pid = true →
      lookupA (handleMessage rand s w (.reconnect (some pid) nm)).1.offlineTimers pid = none)
    ∧ (∀ (rand : Nat → Nat) (evs : List Ev) (tw : Nat) (p : String),
        (tw, ServerEvent.playerOffline p) ∉ (execAux rand initState evs).2)
    ∧ (∀ (rand : Nat → Nat) (s : WSState) (e : Ev) (pid : String),
        (lookupA s.clients pid).isSome = true →
        (lookupA (applyEvent rand s e).1.clients pid).isSome = false →
        ∃ exp, e = Ev.timerFire pid ∧ lookupA s.offlineTimers pid = some exp ∧
          exp ≤ s.now) := by
  refine ⟨?_, ?_, ?_⟩
  · intro rand s w pid nm hw hsome h4
    rw [handleMessage_reconnect rand s w hw hsome]
    obtain ⟨-, hti, -⟩ := handleReconnect_valid s w pid nm h4
    rw [hti]
    exact lookupA_eraseA_self _ _
  · intro rand evs tw p hmem
    exact execAux_noOffline rand evs initState (tw, ServerEvent.playerOffline p) hmem p rfl
  · intro rand s e pid h1 h2
    rcases applyEvent_clients rand s e with h | ⟨pid', w', h⟩ | ⟨pid', exp, he, heq, hle, h⟩
    · rw [h, h1] at h2; cases h2
    · rw [h] at h2
      rw [lookupA_isSome_setA s.clients pid' pid w' h1] at h2
      cases h2
    · by_cases hp : pid' = pid
      · subst hp
        exact ⟨exp, he, heq, hle⟩
      · rw [h, lookupA_eraseA_ne _ _ _ hp, h1] at h2
        cases h2

/-- Witness for C3: in `csB` (channel 1 closed, timer for `"2222"`
pending), a reconnect of `"2222"` on channel 0 cancels the timer; the
executed seven-event trace emits no offline event; and in `csC` the due
timer fire is the step that unbinds `"2222"`. -/
theorem C3_offline_suppression_witness :
    lookupA (handleMessage r0 csB 0 (.reconnect (some "2222") none)).1.offlineTimers
      "2222" = none ∧
    (0, ServerEvent.playerOffline "2222") ∉ (execAux r0 initState traceGetAll).2 ∧
    lookupA csC.offlineTimers "2222" = some 2000 ∧ (2000 : Nat) ≤ csC.now := by
  refine ⟨C3_offline_suppression.1 r0 csB 0 "2222" none (by decide) (by decide) (by decide),
    C3_offline_suppression.2.1 r0 traceGetAll 0 "2222", ?_⟩
  obtain ⟨exp, -, heq, hle⟩ :=
    C3_offline_suppression.2.2 r0 csC (.timerFire "2222") "2222" (by decide) (by decide)
  have h20 : exp = 2000 :=
    (Option.some.inj ((show lookupA csC.offlineTimers "2222" = some 2000 by
      decide).symm.trans heq)).symm
  exact ⟨h20 ▸ heq, h20 ▸ hle⟩

/-! ## Claim C4 -/

theorem announce_skip (s : WSState) (pid : String)
    (h : s.now - (lookupA s.lastOnline pid).getD 0 < 1500) :
    sendPlayerOnlineCore s pid = (s.lastOnline, []) := by
  unfold sendPlayerOnlineCore
  dsimp only
  rw [if_pos h]

theorem announce_csA (n : Nat) (L : List (String × Nat))
    (h : ¬ (n - (lookupA L "1111").getD 0 < 1500)) :
    sendPlayerOnlineCore { csA with now := n, lastOnline := L } "1111" =
      (setA L "1111" n, [(1, ServerEvent.playerOnline "1111")]) := by
  unfold sendPlayerOnlineCore
  dsimp only
  rw [if_neg h]
  simp [csA, lookupA, setA, sendToList]

/-- C4: online debounce.  (i) An announcement strictly less than 1500 ms
after the recorded previous one for the same identifier emits nothing and
changes nothing.  (ii) Whenever an announcement emits anything, at least
1500 ms have passed, exactly one `player:online` notification is emitted,
and the announcing identifier's session exists with a declared opponent
that is currently bound with an open channel.  (iii)/(iv) In the two-player
state `csA`, announcements at absolute times `b` and `b + 1000`
(first-ever announcement, so `1500 ≤ b` makes the first deliverable)
deliver exactly one notification to the opponent's channel, while `b` and
`b + 2000` deliver exactly two. -/
theorem C4_online_debounce :
    (∀ (s : WSState) (pid : String),
      s.now - (lookupA s.lastOnline pid).getD 0 < 1500 →
      sendPlayerOnlineCore s pid = (s.lastOnline, []))
    ∧ (∀ (s : WSState) (pid : String),
        (sendPlayerOnlineCore s pid).2 = [] ∨
        (1500 ≤ s.now - (lookupA s.lastOnline pid).getD 0 ∧
         ∃ t cw ci oid ow,
           (sendPlayerOnlineCore s pid).2 = [(t, ServerEvent.playerOnline pid)] ∧
           lookupA s.clients pid = some cw ∧ lookupA s.info cw = some ci ∧
           ci.opponentID = some oid ∧ oid ≠ "" ∧ lookupA s.clients oid = some ow ∧
           ow ∈ s.openSet))
    ∧ (∀ b : Nat, 1500 ≤ b →
        twoAnnounce b 1000 = [(1, ServerEvent.playerOnline "1111")])
    ∧ (∀ b : Nat, 1500 ≤ b →
        twoAnnounce b 2000 =
          [(1, ServerEvent.playerOnline "1111"), (1, ServerEvent.playerOnline "1111")]) := by
  refine ⟨announce_skip, ?_, ?_, ?_⟩
  · intro s pid
    unfold sendPlayerOnlineCore
    dsimp only
    split
    · left; rfl
    · rename_i hge
      split
      · rename_i cw hcw
        split
        · rename_i ci hci
          split
          · rename_i oid hoid
            split
            · left; rfl
            · rename_i hne
              split
              · rename_i ow how
                split
                · rename_i hopen
                  split
                  · rename_i oc hoc
                    rcases sendToList_shape { s with lastOnline := setA s.lastOnline pid s.now }
                        oc.playerID (ServerEvent.playerOnline pid) with h0 | ⟨t, h0⟩
                    · left; exact h0
                    · right
                      exact ⟨Nat.le_of_not_lt hge, t, cw, ci, oid, ow, h0, hcw, hci, hoid,
                        hne, how, hopen⟩
                  · left; rfl
                · left; rfl
              · left; rfl
          · left; rfl
        · left; rfl
      · left; rfl
  · intro b hb
    unfold twoAnnounce
    dsimp only
    rw [announce_csA b [] (by simp [lookupA]; try omega)]
    dsimp only
    rw [announce_skip { csA with now := b + 1000, lastOnline := setA [] "1111" b } "1111"
      (by simp [setA, lookupA]; try omega)]
    rfl
  · intro b hb
    unfold twoAnnounce
    dsimp only
    rw [announce_csA b [] (by simp [lookupA]; try omega)]
    dsimp only
    rw [announce_csA (b + 2000) (setA [] "1111" b) (by simp [setA, lookupA]; try omega)]
    rfl

/-- Witness for C4: suppression in `csA` at time 0 (previous announcement
defaulted to 0), a delivered (nonempty) announcement in `csA` at time 1500,
and the two scenario computations at `b = 1500`. -/
theorem C4_online_debounce_witness :
    sendPlayerOnlineCore csA "1111" = (csA.lastOnline, []) ∧
    (sendPlayerOnlineCore { csA with now := 1500 } "1111").2 ≠ [] ∧
    twoAnnounce 1500 1000 = [(1, ServerEvent.playerOnline "1111")] ∧
    twoAnnounce 1500 2000 =
      [(1, ServerEvent.playerOnline "1111"), (1, ServerEvent.playerOnline "1111")] := by
  refine ⟨C4_online_debounce.1 csA "1111" (by decide), ?_,
    C4_online_debounce.2.2.1 1500 (by decide), C4_online_debounce.2.2.2 1500 (by decide)⟩
  rcases C4_online_debounce.2.1 { csA with now := 1500 } "1111" with h | ⟨-, t, hrest⟩
  · exact absurd h (by decide)
  · obtain ⟨cw, ci, oid, ow, h1, -⟩ := hrest
    rw [h1]
    simp

/-! ## Claim C5 -/

/-- C5 counterexample: in `csA`, the bound sender `"1111"` (open channel 0)
sends apply-points naming the bound, open, distinct opponent `"2222"` — and
the message is silently ignored (no forward, no state change), because the
dispatch switch has no `game:apply_points` case.  The claim asserted the
payload would be forwarded. -/
theorem C5_forwarding_kinds_counterexample :
    handleMessage r0 csA 0 (ClientMsg.applyPoints (some "2222") (some 5)) = (csA, []) ∧
    (0 : Nat) ∈ csA.wsToClient ∧ (0 : Nat) ∈ csA.openSet ∧
    lookupA csA.info 0 = some { playerID := "1111", name := some "A", location := none
                                opponentID := some "2222", lastState := none } ∧
    lookupA csA.clients "2222" = some 1 ∧ (1 : Nat) ∈ csA.openSet ∧
    ("2222" : String) ≠ "1111" := by
  decide

/-- C5 (amended): for apply-brisks, opponent-undo, and reset, a message
whose payload opponent `O` is present, nonempty, and different from the
sender is forwarded (augmented with the sender's identifier) exactly when
`O` is bound with an open channel, with no state change; when `O` is absent
or equals the sender the message is dropped with no reply and no state
change.  Apply-points has no dispatch case and is always silently ignored,
never forwarded. -/
theorem C5_forwarding_kinds :
    ∀ (rand : Nat → Nat) (s : WSState) (w : Nat) (ci : ClientInfo),
      w ∈ s.wsToClient → lookupA s.info w = some ci →
      (∀ (oid : String) (bc : Option Int), oid ≠ "" → oid ≠ ci.playerID →
        handleMessage rand s w (.applyBrisks (some oid) bc) =
          (s, match lookupA s.clients oid with
              | some tw =>
                if tw ∈ s.openSet then [(tw, ServerEvent.applyBrisksE bc ci.playerID)]
                else []
              | none => [])) ∧
      (∀ (oid : String) (p b : Option Int), oid ≠ "" → oid ≠ ci.playerID →
        handleMessage rand s w (.opponentUndo (some oid) p b) =
          (s, match lookupA s.clients oid with
              | some tw =>
                if tw ∈ s.openSet then [(tw, ServerEvent.opponentUndoE p b ci.playerID)]
                else []
              | none => [])) ∧
      (∀ (oid : String), oid ≠ "" → oid ≠ ci.playerID →
        handleMessage rand s w (.gameReset (some oid)) =
          (s, match lookupA s.clients oid with
              | some tw =>
                if tw ∈ s.openSet then [(tw, ServerEvent.gameResetE ci.playerID)] else []
              | none => [])) ∧
      (∀ bc : Option Int, handleMessage rand s w (.applyBrisks none bc) = (s, []) ∧
        handleMessage rand s w (.applyBrisks (some ci.playerID) bc) = (s, [])) ∧
      (∀ p b : Option Int, handleMessage rand s w (.opponentUndo none p b) = (s, []) ∧
        handleMessage rand s w (.opponentUndo (some ci.playerID) p b) = (s, [])) ∧
      (handleMessage rand s w (.gameReset none) = (s, []) ∧
       handleMessage rand s w (.gameReset (some ci.playerID)) = (s, [])) ∧
      (∀ (o : Option String) (p : Option Int),
        handleMessage rand s w (.applyPoints o p) = (s, [])) := by
  intro rand s w ci hw hi
  refine ⟨?_, ?_, ?_, ?_, ?_, ⟨?_, ?_⟩, ?_⟩
  · intro oid bc hne hns
    rw [handleMessage_at rand s w ci hw hi]
    dsimp only
    unfold handleApplyBrisks
    dsimp only
    rw [if_neg (by rintro (h | h) <;> [exact hne h; exact hns h])]
    refine congrArg (Prod.mk s) ?_
    split
    · rename_i tw htw
      split
      · rename_i hopen
        unfold sendToList
        rw [htw]
        dsimp only
        rw [if_pos hopen]
      · rfl
    · rfl
  · intro oid p b hne hns
    rw [handleMessage_at rand s w ci hw hi]
    dsimp only
    unfold handleOpponentUndo
    dsimp only
    rw [if_neg (by rintro (h | h) <;> [exact hne h; exact hns h])]
    refine congrArg (Prod.mk s) ?_
    split
    · rename_i tw htw
      split
      · rename_i hopen
        unfold sendToList
        rw [htw]
        dsimp only
        rw [if_pos hopen]
      · rfl
    · rfl
  · intro oid hne hns
    rw [handleMessage_at rand s w ci hw hi]
    dsimp only
    unfold handleGameReset
    dsimp only
    rw [if_neg (by rintro (h | h) <;> [exact hne h; exact hns h])]
    refine congrArg (Prod.mk s) ?_
    split
    · rename_i tw htw
      split
      · rename_i hopen
        unfold sendToList
        rw [htw]
        dsimp only
        rw [if_pos hopen]
      · rfl
    · rfl
  · intro bc
    constructor
    · rw [handleMessage_at rand s w ci hw hi (.applyBrisks none bc)]; rfl
    · rw [handleMessage_at rand s w ci hw hi (.applyBrisks (some ci.playerID) bc)]
      dsimp only
      unfold handleApplyBrisks
      dsimp only
      rw [if_pos (Or.inr rfl)]
  · intro p b
    constructor
    · rw [handleMessage_at rand s w ci hw hi (.opponentUndo none p b)]; rfl
    · rw [handleMessage_at rand s w ci hw hi (.opponentUndo (some ci.playerID) p b)]
      dsimp only
      unfold handleOpponentUndo
      dsimp only
      rw [if_pos (Or.inr rfl)]
  · rw [handleMessage_at rand s w ci hw hi (.gameReset none)]; rfl
  · rw [handleMessage_at rand s w ci hw hi (.gameReset (some ci.playerID))]
    dsimp only
    unfold handleGameReset
    dsimp only
    rw [if_pos (Or.inr rfl)]
  · intro o p
    rw [handleMessage_at rand s w ci hw hi (.applyPoints o p)]

/-- Witness for C5 (amended) at concrete inputs in `csA`. -/
theorem C5_forwarding_kinds_witness :
    handleMessage r0 csA 0 (.applyBrisks (some "2222") (some 3)) =
      (csA, [(1, ServerEvent.applyBrisksE (some 3) "1111")]) ∧
    handleMessage r0 csA 0 (.opponentUndo (some "2222") (some 4) none) =
      (csA, [(1, ServerEvent.opponentUndoE (some 4) none "1111")]) ∧
    handleMessage r0 csA 0 (.gameReset (some "2222")) =
      (csA, [(1, ServerEvent.gameResetE "1111")]) ∧
    handleMessage r0 csA 0 (.applyBrisks (some "1111") (some 3)) = (csA, []) ∧
    handleMessage r0 csA 0 (.applyPoints (some "2222") none) = (csA, []) := by
  obtain ⟨hb, hu, hr, hbd, -, -, hap⟩ :=
    C5_forwarding_kinds r0 csA 0
      { playerID := "1111", name := some "A", location := none
        opponentID := some "2222", lastState := none } (by decide) (by decide)
  exact ⟨(hb "2222" (some 3) (by decide) (by decide)).trans (by decide),
    (hu "2222" (some 4) none (by decide) (by decide)).trans (by decide),
    (hr "2222" (by decide) (by decide)).trans (by decide),
    (hbd (some 3)).2, hap (some "2222") none⟩

/-! ## Claim C6 -/

theorem listStarts_self : ∀ l : List Char, listStarts l l = true := by
  intro l
  induction l with
  | nil => rfl
  | cons c rest ih => simp [listStarts, ih]

theorem strIncludes_self (t : String) : strIncludes t t = true := by
  unfold strIncludes
  rcases t.toList with _ | ⟨c, rest⟩
  · rfl
  · simp [listInfixOf, listStarts_self]

theorem searchEntry_playerID (s : WSState) (pid : String) (cw : Nat) :
    (searchEntry s pid cw).playerID = pid := by
  unfold searchEntry
  split <;> rfl

theorem searchEntry_name (s : WSState) (pid : String) (cw : Nat) :
    (searchEntry s pid cw).name = nameOf s cw := by
  unfold searchEntry nameOf
  split <;> rfl

theorem searchLoop_spec (s : WSState) (ex term lower : String) (ex4 : Bool) :
    ∀ (l : List (String × Nat)) (acc : List PlayerEntry),
      ∃ tail, searchLoop s ex term lower ex4 l acc = acc ++ tail ∧
        ∀ e ∈ tail, ∃ pid cw, (pid, cw) ∈ l ∧ pid ≠ ex ∧ ¬(ex4 = true ∧ pid = term) ∧
          (strIncludes (strLower pid) lower = true ∨
           strIncludes (strLower (nameOf s cw)) lower = true) ∧
          e = searchEntry s pid cw := by
  intro l
  induction l with
  | nil =>
    intro acc
    exact ⟨[], by simp [searchLoop], by simp⟩
  | cons hd rest ih =>
    obtain ⟨pid, cw⟩ := hd
    intro acc
    unfold searchLoop
    by_cases h1 : pid = ex
    · rw [if_pos h1]
      obtain ⟨tail, ht, hp⟩ := ih acc
      refine ⟨tail, ht, fun e he => ?_⟩
      obtain ⟨pid', cw', hm, h⟩ := hp e he
      exact ⟨pid', cw', List.mem_cons_of_mem _ hm, h⟩
    · rw [if_neg h1]
      by_cases h2 : ex4 = true ∧ pid = term
      · rw [if_pos h2]
        obtain ⟨tail, ht, hp⟩ := ih acc
        refine ⟨tail, ht, fun e he => ?_⟩
        obtain ⟨pid', cw', hm, h⟩ := hp e he
        exact ⟨pid', cw', List.mem_cons_of_mem _ hm, h⟩
      · rw [if_neg h2]
        by_cases h3 : strIncludes (strLower pid) lower = true ∨
            strIncludes (strLower (nameOf s cw)) lower = true
        · rw [if_pos h3]
          dsimp only
          by_cases h4 : 5 ≤ (acc ++ [searchEntry s pid cw]).length
          · rw [if_pos h4]
            refine ⟨[searchEntry s pid cw], rfl, ?_⟩
            intro e he
            rw [List.mem_singleton] at he
            exact ⟨pid, cw, List.mem_cons_self _ _, h1, h2, h3, he⟩
          · rw [if_neg h4]
            obtain ⟨tail, ht, hp⟩ := ih (acc ++ [searchEntry s pid cw])
            refine ⟨searchEntry s pid cw :: tail, ?_, ?_⟩
            · rw [ht]
              simp
            · intro e he
              rcases List.mem_cons.mp he with rfl | he
              · exact ⟨pid, cw, List.mem_cons_self _ _, h1, h2, h3, rfl⟩
              · obtain ⟨pid', cw', hm, h⟩ := hp e he
                exact ⟨pid', cw', List.mem_cons_of_mem _ hm, h⟩
        · rw [if_neg h3]
          obtain ⟨tail, ht, hp⟩ := ih acc
          refine ⟨tail, ht, fun e he => ?_⟩
          obtain ⟨pid', cw', hm, h⟩ := hp e he
          exact ⟨pid', cw', List.mem_cons_of_mem _ hm, h⟩

theorem searchLoop_len (s : WSState) (ex term lower : String) (ex4 : Bool) :
    ∀ (l : List (String × Nat)) (acc : List PlayerEntry),
      acc.length ≤ 4 → (searchLoop s ex term lower ex4 l acc).length ≤ 5 := by
  intro l
  induction l with
  | nil =>
    intro acc h
    rw [show searchLoop s ex term lower ex4 [] acc = acc from rfl]
    omega
  | cons hd rest ih =>
    obtain ⟨pid, cw⟩ := hd
    intro acc hacc
    unfold searchLoop
    by_cases h1 : pid = ex
    · rw [if_pos h1]; exact ih acc hacc
    · rw [if_neg h1]
      by_cases h2 : ex4 = true ∧ pid = term
      · rw [if_pos h2]; exact ih acc hacc
      · rw [if_neg h2]
        by_cases h3 : strIncludes (strLower pid) lower = true ∨
            strIncludes (strLower (nameOf s cw)) lower = true
        · rw [if_pos h3]
          dsimp only
          by_cases h4 : 5 ≤ (acc ++ [searchEntry s pid cw]).length
          · rw [if_pos h4]
            simp only [List.length_append, List.length_singleton]
            omega
          · rw [if_neg h4]
            refine ih _ ?_
            simp only [List.length_append, List.length_singleton] at h4 ⊢
            omega
        · rw [if_neg h3]; exact ih acc hacc

/-- C6: search.  (i) For a bound, open requester, an absent or blank search
term is answered with an empty result list.  (ii) `searchPlayers` never
returns more than 5 entries.  (iii) Every returned entry is not the
requester and matches the term as a case-insensitive substring of its
identifier or name.  (iv) When the term is exactly 4 digits and a session
with that identifier exists and is not the requester, that exact match is
the first result and is not repeated among the substring matches.  (v) The
spec scenario: with `"3333"`, `"3344"`, `"5555"` bound, `"3333"` searching
`"33"` gets exactly `"3344"`. -/
theorem C6_search :
    (∀ (rand : Nat → Nat) (s : WSState) (w : Nat) (ci : ClientInfo),
      w ∈ s.wsToClient → lookupA s.info w = some ci →
      lookupA s.clients ci.playerID = some w → w ∈ s.openSet →
      handleMessage rand s w (.search none) =
        (s, [(w, ServerEvent.searchResults [])]) ∧
      (∀ t : String, strTrim t = "" →
        handleMessage rand s w (.search (some t)) =
          (s, [(w, ServerEvent.searchResults [])])))
    ∧ (∀ (s : WSState) (ex term : String), (searchPlayers s ex term).length ≤ 5)
    ∧ (∀ (s : WSState) (ex term : String) (e : PlayerEntry),
        e ∈ searchPlayers s ex term →
        e.playerID ≠ ex ∧
        (strIncludes (strLower e.playerID) (strLower term) = true ∨
         strIncludes (strLower e.name) (strLower term) = true))
    ∧ (∀ (s : WSState) (ex term : String) (cw : Nat),
        is4Digit term = true → lookupA s.clients term = some cw → term ≠ ex →
        ∃ rest, searchPlayers s ex term = searchEntry s term cw :: rest ∧
          ∀ e ∈ rest, e.playerID ≠ term)
    ∧ (execAux r0 initState traceSearch).2 =
        [(0, ServerEvent.connectionEstablished),
         (0, ServerEvent.reconnected "3333"),
         (1, ServerEvent.connectionEstablished),
         (1, ServerEvent.reconnected "3344"),
         (2, ServerEvent.connectionEstablished),
         (2, ServerEvent.reconnected "5555"),
         (0, ServerEvent.searchResults
           [{ playerID := "3344", name := "D", isOnline := true, location := none }])] := by
  refine ⟨?_, ?_, ?_, ?_, by decide⟩
  · intro rand s w ci hw hi hcw hopen
    constructor
    · rw [handleMessage_at rand s w ci hw hi (.search none)]
      dsimp only
      unfold handleSearch sendToList
      rw [hcw]
      dsimp only
      rw [if_pos hopen]
    · intro t ht
      rw [handleMessage_at rand s w ci hw hi (.search (some t))]
      dsimp only
      unfold handleSearch
      dsimp only
      rw [if_pos ht]
      unfold sendToList
      rw [hcw]
      dsimp only
      rw [if_pos hopen]
  · intro s ex term
    unfold searchPlayers
    dsimp only
    apply searchLoop_len
    split
    · split
      · split
        · simp
        · simp
      · simp
    · simp
  · intro s ex term e he
    unfold searchPlayers at he
    dsimp only at he
    obtain ⟨tail, ht, hp⟩ := searchLoop_spec s ex term (strLower term) (is4Digit term) s.clients
      (if is4Digit term = true then
        match lookupA s.clients term with
        | some cw => if term = ex then [] else [searchEntry s term cw]
        | none => []
       else [])
    rw [ht] at he
    rcases List.mem_append.mp he with hs | htl
    · split at hs
      · split at hs
        · rename_i cw hcw
          split at hs
          · simp at hs
          · rename_i hnex
            rw [List.mem_singleton] at hs
            subst hs
            refine ⟨by rw [searchEntry_playerID]; exact hnex, Or.inl ?_⟩
            rw [searchEntry_playerID]
            exact strIncludes_self _
        · simp at hs
      · simp at hs
    · obtain ⟨pid, cw, -, hnex, -, hm, heq⟩ := hp e htl
      subst heq
      rw [searchEntry_playerID, searchEntry_name]
      exact ⟨hnex, hm⟩
  · intro s ex term cw h4 hcw hnex
    unfold searchPlayers
    dsimp only
    rw [if_pos h4, hcw]
    dsimp only
    rw [if_neg hnex]
    obtain ⟨tail, ht, hp⟩ :=
      searchLoop_spec s ex term (strLower term) (is4Digit term) s.clients [searchEntry s term cw]
    refine ⟨tail, by rw [ht]; rfl, ?_⟩
    intro e he
    obtain ⟨pid, cw', -, -, hguard, -, heq⟩ := hp e he
    subst heq
    rw [searchEntry_playerID]
    intro hc
    exact hguard ⟨h4, hc⟩

/-- Witness for C6 at concrete inputs in `csA`. -/
theorem C6_search_witness :
    handleMessage r0 csA 0 (.search none) = (csA, [(0, ServerEvent.searchResults [])]) ∧
    handleMessage r0 csA 0 (.search (some " ")) =
      (csA, [(0, ServerEvent.searchResults [])]) ∧
    (searchPlayers csA "1111" "2").length ≤ 5 ∧
    ((searchEntry csA "2222" 1).playerID ≠ "1111" ∧
      (strIncludes (strLower (searchEntry csA "2222" 1).playerID) (strLower "2") = true ∨
       strIncludes (strLower (searchEntry csA "2222" 1).name) (strLower "2") = true)) ∧
    (searchPlayers csA "1111" "2222").head? = some (searchEntry csA "2222" 1) := by
  obtain ⟨ha1, ha2⟩ := C6_search.1 r0 csA 0
    { playerID := "1111", name := some "A", location := none
      opponentID := some "2222", lastState := none } (by decide) (by decide) (by decide)
    (by decide)
  obtain ⟨rest, hd1, -⟩ :=
    C6_search.2.2.2.1 csA "1111" "2222" 1 (by decide) (by decide) (by decide)
  refine ⟨ha1, ha2 " " (by decide), C6_search.2.1 csA "1111" "2",
    C6_search.2.2.1 csA "1111" "2" (searchEntry csA "2222" 1) (by decide), ?_⟩
  rw [hd1]
  rfl

/-! ## Claim C7 -/

/-- C7 counterexample: execute the trace in which `"2222"` (channel 1)
disconnects and its 2000 ms offline debounce is still pending; channel 1 is
closed, yet the list-all-players reply to `"1111"` still contains the
`"2222"` session (with `isOnline := false`).  The claim said no session
without an open, bound channel appears in the list. -/
theorem C7_list_all_players_counterexample :
    (execAux r0 initState traceGetAll).2 =
      [(0, ServerEvent.connectionEstablished),
       (0, ServerEvent.reconnected "1111"),
       (1, ServerEvent.connectionEstablished),
       (1, ServerEvent.reconnected "2222"),
       (0, ServerEvent.playersList
         [{ playerID := "2222", name := "B", isOnline := false, location := none }])] ∧
    (1 : Nat) ∉ (execAux r0 initState traceGetAll).1.openSet ∧
    lookupA (execAux r0 initState traceGetAll).1.clients "2222" = some 1 := by
  decide

theorem rawEntry_playerID (s : WSState) (pid : String) (cw : Nat) :
    (rawEntry s pid cw).playerID = pid := by
  unfold rawEntry
  split <;> rfl

theorem rawEntry_isOnline (s : WSState) (pid : String) (cw : Nat) :
    (rawEntry s pid cw).isOnline = decide (cw ∈ s.openSet) := by
  unfold rawEntry
  split <;> rfl

theorem getAllPlayers_keys (s : WSState) (ex : String) :
    (getAllPlayers s ex).map (fun p => p.playerID) =
      (s.clients.map Prod.fst).filter (fun k => decide (k ≠ ex)) := by
  unfold getAllPlayers
  suffices h : ∀ l : List (String × Nat),
      ((l.filter (fun e => decide (e.1 ≠ ex))).map (fun e => rawEntry s e.1 e.2)).map
          (fun p => p.playerID) =
        (l.map Prod.fst).filter (fun k => decide (k ≠ ex)) from h s.clients
  intro l
  induction l with
  | nil => rfl
  | cons e t ih =>
    obtain ⟨k, v⟩ := e
    simp only [List.map_cons]
    by_cases h : k = ex
    · rw [show List.filter (fun e => decide (e.1 ≠ ex)) ((k, v) :: t) =
          List.filter (fun e => decide (e.1 ≠ ex)) t by simp [List.filter_cons, h]]
      rw [show List.filter (fun k => decide (k ≠ ex)) (k :: t.map Prod.fst) =
          List.filter (fun k => decide (k ≠ ex)) (t.map Prod.fst) by
            simp [List.filter_cons, h]]
      exact ih
    · rw [show List.filter (fun e => decide (e.1 ≠ ex)) ((k, v) :: t) =
          (k, v) :: List.filter (fun e => decide (e.1 ≠ ex)) t by simp [List.filter_cons, h]]
      rw [show List.filter (fun k => decide (k ≠ ex)) (k :: t.map Prod.fst) =
          k :: List.filter (fun k => decide (k ≠ ex)) (t.map Prod.fst) by
            simp [List.filter_cons, h]]
      simp only [List.map_cons]
      rw [rawEntry_playerID, ih]

/-- C7 (amended): the list-all-players reply to a bound requester `S`
contains exactly the currently *bound* sessions except `S`, in map order,
regardless of whether their channel is open — each entry carrying
identifier, name, online flag, and location, where the online flag is true
exactly when the session's channel is open.  A session whose channel has
closed but whose offline debounce is still pending therefore appears in the
list with online flag false. -/
theorem C7_list_all_players :
    (∀ (rand : Nat → Nat) (s : WSState) (w : Nat) (ci : ClientInfo),
      w ∈ s.wsToClient → lookupA s.info w = some ci →
      lookupA s.clients ci.playerID = some w → w ∈ s.openSet →
      handleMessage rand s w .getAll =
        (s, [(w, ServerEvent.playersList ((getAllPlayers s ci.playerID).map
          (fun p => PlayerEntry.mk p.playerID (p.name.getD "") p.isOnline p.location)))]))
    ∧ (∀ (s : WSState) (ex : String),
        (getAllPlayers s ex).map (fun p => p.playerID) =
          (s.clients.map Prod.fst).filter (fun k => decide (k ≠ ex)))
    ∧ (∀ (s : WSState) (ex pid : String) (cw : Nat), (pid, cw) ∈ s.clients → pid ≠ ex →
        rawEntry s pid cw ∈ getAllPlayers s ex ∧
        (rawEntry s pid cw).isOnline = decide (cw ∈ s.openSet)) := by
  refine ⟨?_, getAllPlayers_keys, ?_⟩
  · intro rand s w ci hw hi hcw hopen
    rw [handleMessage_at rand s w ci hw hi .getAll]
    dsimp only
    unfold handleGetAll sendToList
    rw [hcw]
    dsimp only
    rw [if_pos hopen]
  · intro s ex pid cw hm hne
    refine ⟨?_, rawEntry_isOnline s pid cw⟩
    unfold getAllPlayers
    exact List.mem_map.mpr ⟨(pid, cw), List.mem_filter.mpr ⟨hm, by simp [hne]⟩, rfl⟩

/-- Witness for C7 (amended) in `csB`, where channel 1 (session `"2222"`)
is closed with the debounce pending: the reply still lists `"2222"`, with
online flag false. -/
theorem C7_list_all_players_witness :
    handleMessage r0 csB 0 ClientMsg.getAll =
      (csB, [(0, ServerEvent.playersList
        [{ playerID := "2222", name := "B", isOnline := false, location := none }])]) ∧
    (getAllPlayers csB "1111").map (fun p => p.playerID) = ["2222"] ∧
    rawEntry csB "2222" 1 ∈ getAllPlayers csB "1111" ∧
    (rawEntry csB "2222" 1).isOnline = false := by
  have h1 := C7_list_all_players.1 r0 csB 0
    { playerID := "1111", name := some "A", location := none
      opponentID := some "2222", lastState := none } (by decide) (by decide) (by decide)
    (by decide)
  have h2 := C7_list_all_players.2.1 csB "1111"
  have h3 := C7_list_all_players.2.2 csB "1111" "2222" 1 (by decide) (by decide)
  exact ⟨h1.trans (by decide), h2.trans (by decide), h3.1, h3.2.trans (by decide)⟩

/-! ## Claim C8 -/

/-- C8: serialized, coalescing persistence.  A persist request arriving
while a write is in flight starts no write — it is queued behind the
in-flight one (`savingPromise` chain grows by one) — while a request at
idle starts exactly one write.  Completion of the in-flight write starts
exactly one queued write if any is pending, else returns to idle, so
writes are strictly serialized (single in-flight slot) and the accounting
invariant `persistReqs = writeCount + queued` holds in every reachable
state: no request is lost or duplicated.  A reconnect's persist request
returns with the write still outstanding — the caller is not blocked on
completion, which is a separate later event. -/
theorem C8_persist_serialized :
    (∀ (s : WSState) (k : Nat), s.saving = some k →
      (requestSave s).saving = some (k + 1) ∧
      (requestSave s).writeCount = s.writeCount ∧
      (requestSave s).persistReqs = s.persistReqs + 1)
    ∧ (∀ s : WSState, s.saving = none →
        (requestSave s).saving = some 0 ∧ (requestSave s).writeCount = s.writeCount + 1)
    ∧ (∀ (s : WSState) (k : Nat), s.saving = some (k + 1) →
        (writeDoneStep s).saving = some k ∧
        (writeDoneStep s).writeCount = s.writeCount + 1)
    ∧ (∀ s : WSState, s.saving = some 0 →
        (writeDoneStep s).saving = none ∧ (writeDoneStep s).writeCount = s.writeCount)
    ∧ (∀ s, Reachable s → s.persistReqs = s.writeCount + debt s.saving)
    ∧ (∀ (rand : Nat → Nat) (s : WSState) (w : Nat) (pid : String) (nm : Option String),
        w ∈ s.wsToClient → (lookupA s.info w).isSome = true → is4Digit pid = true →
        (handleMessage rand s w (.reconnect (some pid) nm)).1.persistReqs =
          s.persistReqs + 1 ∧
        (handleMessage rand s w (.reconnect (some pid) nm)).1.saving ≠ none) := by
  refine ⟨?_, ?_, ?_, ?_, reachable_pInv, ?_⟩
  · intro s k h
    unfold requestSave
    rw [h]
    exact ⟨rfl, rfl, rfl⟩
  · intro s h
    unfold requestSave
    rw [h]
    exact ⟨rfl, rfl⟩
  · intro s k h
    unfold writeDoneStep
    rw [h]
    exact ⟨rfl, rfl⟩
  · intro s h
    unfold writeDoneStep
    rw [h]
    exact ⟨rfl, rfl⟩
  · intro rand s w pid nm hw hsome h4
    rw [handleMessage_reconnect rand s w hw hsome]
    obtain ⟨-, -, -, hpr, hsv, -⟩ := handleReconnect_valid s w pid nm h4
    refine ⟨hpr, ?_⟩
    rw [hsv]
    unfold requestSave
    dsimp only
    exact Option.some_ne_none _

/-- Witness for C8 at concrete states. -/
theorem C8_persist_serialized_witness :
    (requestSave { csA with saving := some 2 }).saving = some 3 ∧
    (requestSave { csA with saving := some 2 }).writeCount = 0 ∧
    (requestSave csA).saving = some 0 ∧
    (requestSave csA).writeCount = 1 ∧
    (writeDoneStep { csA with saving := some 2 }).saving = some 1 ∧
    (writeDoneStep { csA with saving := some 0 }).saving = none ∧
    initState.persistReqs = initState.writeCount + debt initState.saving ∧
    (handleMessage r0 csA 0 (.reconnect (some "4321") none)).1.persistReqs =
      csA.persistReqs + 1 ∧
    (handleMessage r0 csA 0 (.reconnect (some "4321") none)).1.saving ≠ none := by
  obtain ⟨p1, p2, p3, p4, p5, p6⟩ := C8_persist_serialized
  obtain ⟨h1, h2⟩ := p6 r0 csA 0 "4321" none (by decide) (by decide) (by decide)
  exact ⟨(p1 { csA with saving := some 2 } 2 rfl).1,
    ((p1 { csA with saving := some 2 } 2 rfl).2.1).trans (by decide),
    (p2 csA rfl).1, ((p2 csA rfl).2).trans (by decide),
    (p3 { csA with saving := some 2 } 1 rfl).1,
    (p4 { csA with saving := some 0 } rfl).1,
    p5 initState ⟨r0, [], rfl⟩, h1, h2⟩

/-! ## Claim C9 -/

/-- C9 (implicit): score-update has no self-targeting check.  A bound,
open sender whose score-update names the sender's own identifier receives
the `game:opponent_scored` event back itself, carrying the score
(defaulting to 0 when absent) and its own identifier — while apply-brisks,
opponent-undo, and reset drop the same self-targeted message. -/
theorem C9_score_update_self :
    ∀ (rand : Nat → Nat) (s : WSState) (w : Nat) (ci : ClientInfo) (sc bc : Option Int),
      w ∈ s.wsToClient → lookupA s.info w = some ci →
      lookupA s.clients ci.playerID = some w → w ∈ s.openSet → ci.playerID ≠ "" →
      handleMessage rand s w (.scoreUpdate (some ci.playerID) sc) =
        (s, [(w, ServerEvent.opponentScored (sc.getD 0) ci.playerID)]) ∧
      handleMessage rand s w (.scoreUpdate (some ci.playerID) none) =
        (s, [(w, ServerEvent.opponentScored 0 ci.playerID)]) ∧
      handleMessage rand s w (.applyBrisks (some ci.playerID) bc) = (s, []) ∧
      handleMessage rand s w (.opponentUndo (some ci.playerID) bc bc) = (s, []) ∧
      handleMessage rand s w (.gameReset (some ci.playerID)) = (s, []) := by
  intro rand s w ci sc bc hw hi hcw hopen hne
  refine ⟨?_, ?_, ?_, ?_, ?_⟩
  · rw [handleMessage_at rand s w ci hw hi (.scoreUpdate (some ci.playerID) sc)]
    dsimp only
    unfold handleScoreUpdate
    dsimp only
    rw [if_neg hne]
    unfold sendToList
    rw [hcw]
    dsimp only
    rw [if_pos hopen]
  · rw [handleMessage_at rand s w ci hw hi (.scoreUpdate (some ci.playerID) none)]
    dsimp only
    unfold handleScoreUpdate
    dsimp only
    rw [if_neg hne]
    unfold sendToList
    rw [hcw]
    dsimp only
    rw [if_pos hopen]
    rfl
  · rw [handleMessage_at rand s w ci hw hi (.applyBrisks (some ci.playerID) bc)]
    dsimp only
    unfold handleApplyBrisks
    dsimp only
    rw [if_pos (Or.inr rfl)]
  · rw [handleMessage_at rand s w ci hw hi (.opponentUndo (some ci.playerID) bc bc)]
    dsimp only
    unfold handleOpponentUndo
    dsimp only
    rw [if_pos (Or.inr rfl)]
  · rw [handleMessage_at rand s w ci hw hi (.gameReset (some ci.playerID))]
    dsimp only
    unfold handleGameReset
    dsimp only
    rw [if_pos (Or.inr rfl)]

/-- Witness for C9: `"1111"` in `csA` scores against itself and receives
`game:opponent_scored` back. -/
theorem C9_score_update_self_witness :
    handleMessage r0 csA 0 (.scoreUpdate (some "1111") (some 40)) =
      (csA, [(0, ServerEvent.opponentScored 40 "1111")]) ∧
    handleMessage r0 csA 0 (.scoreUpdate (some "1111") none) =
      (csA, [(0, ServerEvent.opponentScored 0 "1111")]) ∧
    handleMessage r0 csA 0 (.applyBrisks (some "1111") (some 2)) = (csA, []) := by
  obtain ⟨h1, h2, h3, -⟩ := C9_score_update_self r0 csA 0
    { playerID := "1111", name := some "A", location := none
      opponentID := some "2222", lastState := none } (some 40) (some 2)
    (by decide) (by decide) (by decide) (by decide) (by decide)
  exact ⟨h1, h2, h3⟩

/-! ## Claim C10 -/

/-- C10 (implicit): handlers never check that the sender is bound.  The
placeholder identity of a fresh channel never matches `^\\d{4}$`, yet:
a placeholder channel's score-update is forwarded to the target carrying
the placeholder string as the sender identifier; its start-pairing sets the
target session's opponent identifier to the placeholder string (and its own
to the target); and update-name and state-snapshot messages are processed
normally on its info record. -/
theorem C10_placeholder_processed :
    (∀ w : Nat, is4Digit (tempID w) = false)
    ∧ (∀ (rand : Nat → Nat) (s : WSState) (w : Nat) (ci : ClientInfo) (T : String)
        (tw : Nat) (sc : Option Int),
        w ∈ s.wsToClient → lookupA s.info w = some ci → ci.playerID = tempID w →
        lookupA s.clients T = some tw → tw ∈ s.openSet → T ≠ "" →
        handleMessage rand s w (.scoreUpdate (some T) sc) =
          (s, [(tw, ServerEvent.opponentScored (sc.getD 0) (tempID w))]))
    ∧ (∀ (rand : Nat → Nat) (s : WSState) (w : Nat) (ci : ClientInfo) (T : String)
        (tw : Nat) (cT : ClientInfo),
        w ∈ s.wsToClient → lookupA s.info w = some ci → ci.playerID = tempID w →
        lookupA s.clients T = some tw → lookupA s.info tw = some cT →
        tw ≠ w → T ≠ "" → T ≠ tempID w →
        (lookupA (handleMessage rand s w (.gameStart (some T))).1.info tw).map
            (fun c => c.opponentID) = some (some (tempID w)) ∧
        (lookupA (handleMessage rand s w (.gameStart (some T))).1.info w).map
            (fun c => c.opponentID) = some (some T))
    ∧ (∀ (rand : Nat → Nat) (s : WSState) (w : Nat) (ci : ClientInfo) (n : String),
        w ∈ s.wsToClient → lookupA s.info w = some ci → n ≠ "" →
        (lookupA (handleMessage rand s w (.updateName (some n))).1.info w).map
            (fun c => c.name) = some (some n))
    ∧ (∀ (rand : Nat → Nat) (s : WSState) (w : Nat) (ci : ClientInfo)
        (t : Option Int) (h : Option (List Int)),
        w ∈ s.wsToClient → lookupA s.info w = some ci →
        (lookupA (handleMessage rand s w
            (.stateUpdate none none none t h)).1.info w).map
            (fun c => c.lastState) = some (some { total := t, history := h })) := by
  refine ⟨?_, ?_, ?_, ?_, ?_⟩
  · intro w
    unfold is4Digit tempID
    have hlen : ("temp_" ++ toString w).length = 5 + (toString w).length := by
      rw [String.length_append]
      rfl
    rw [hlen]
    have hbeq : (5 + (toString w).length == 4) = false := by
      rw [beq_eq_false_iff_ne]
      omega
    rw [hbeq]
    rfl
  · intro rand s w ci T tw sc hw hi hpid hT htwo hTne
    rw [handleMessage_at rand s w ci hw hi (.scoreUpdate (some T) sc)]
    dsimp only
    unfold handleScoreUpdate
    dsimp only
    rw [if_neg hTne]
    unfold sendToList
    rw [hT]
    dsimp only
    rw [if_pos htwo, hpid]
  · intro rand s w ci T tw cT hw hi hpid hT hiT htww hTne hTtemp
    rw [handleMessage_at rand s w ci hw hi (.gameStart (some T))]
    dsimp only
    unfold handleGameStart
    dsimp only
    rw [if_neg (by
      rintro (h | h)
      · exact hTne h
      · rw [hpid] at h; exact hTtemp h)]
    rw [hT]
    dsimp only
    unfold mutInfo
    rw [hi]
    dsimp only
    rw [show lookupA (setA s.info w { ci with opponentID := some T }) tw = some cT by
      rw [lookupA_setA_ne _ _ _ _ (Ne.symm htww)]; exact hiT]
    dsimp only
    constructor
    · rw [lookupA_setA_self]
      try dsimp only
      rw [hpid]
      rfl
    · rw [lookupA_setA_ne _ _ _ _ htww, lookupA_setA_self]
      rfl
  · intro rand s w ci n hw hi hn
    rw [handleMessage_at rand s w ci hw hi (.updateName (some n))]
    dsimp only
    unfold handleUpdateName
    try dsimp only
    unfold mutInfo
    rw [hi]
    try dsimp only
    rw [lookupA_setA_self]
    unfold strOr
    dsimp only
    rw [if_neg hn]
    rfl
  · intro rand s w ci t h hw hi
    rw [handleMessage_at rand s w ci hw hi (.stateUpdate none none none t h)]
    dsimp only
    unfold handleStateUpdate
    dsimp only
    unfold mutInfo
    rw [hi]
    dsimp only
    rw [lookupA_setA_self]
    rfl

/-- Witness for C10 in `csT`: channel 5 still holds the placeholder
`temp_5`, yet its score-update reaches `"2222"` with `from = temp_5`, and
its start-pairing writes `temp_5` into `"2222"`'s session. -/
theorem C10_placeholder_processed_witness :
    is4Digit (tempID 5) = false ∧
    handleMessage r0 csT 5 (.scoreUpdate (some "2222") (some 7)) =
      (csT, [(1, ServerEvent.opponentScored 7 (tempID 5))]) ∧
    (lookupA (handleMessage r0 csT 5 (.gameStart (some "2222"))).1.info 1).map
        (fun c => c.opponentID) = some (some (tempID 5)) ∧
    (lookupA (handleMessage r0 csT 5 (.gameStart (some "2222"))).1.info 5).map
        (fun c => c.opponentID) = some (some "2222") ∧
    (lookupA (handleMessage r0 csT 5 (.updateName (some "N"))).1.info 5).map
        (fun c => c.name) = some (some "N") ∧
    (lookupA (handleMessage r0 csT 5
        (.stateUpdate none none none (some 120) (some [20, 100]))).1.info 5).map
        (fun c => c.lastState) =
      some (some { total := some 120, history := some [20, 100] }) := by
  obtain ⟨p1, p2, p3, p4, p5⟩ := C10_placeholder_processed
  have hg := p3 r0 csT 5
    { playerID := tempID 5, name := some "Unknown Player", location := none
      opponentID := none, lastState := none } "2222" 1
    { playerID := "2222", name := some "B", location := none
      opponentID := some "1111", lastState := none }
    (by decide) (by decide) rfl (by decide) (by decide) (by decide) (by decide) (by decide)
  exact ⟨p1 5,
    p2 r0 csT 5
      { playerID := tempID 5, name := some "Unknown Player", location := none
        opponentID := none, lastState := none } "2222" 1 (some 7)
      (by decide) (by decide) rfl (by decide) (by decide) (by decide),
    hg.1, hg.2,
    p4 r0 csT 5
      { playerID := tempID 5, name := some "Unknown Player", location := none
        opponentID := none, lastState := none } "N" (by decide) (by decide) (by decide),
    p5 r0 csT 5
      { playerID := tempID 5, name := some "Unknown Player", location := none
        opponentID := none, lastState := none } (some 120) (some [20, 100])
      (by decide) (by decide)⟩

end Brisker
